import Mathlib

/-!
Verification development for the perpetual position manager
(`src/packages/core/contracts/financial-templates/perpetual-multiparty/PerpetualPositionManager.sol`).

The position ledger, its operations, and the withdrawal/transfer request
state machine are shallowly embedded below.  Monetary values are the raw
`uint256` words of the contract, represented as `Nat` (overflow of 256-bit
words plays no role in any property considered here).  The `FixedPoint`
library and the `FeePayer` fee-accrual layer are not part of the given
sources, so they are modelled from the specification (truncating unsigned
fixed-point arithmetic at 18 decimals, and a monotonically non-increasing
cumulative fee multiplier applied to raw collateral).
-/

namespace PerpetualPositionManager

/-- Modelled from the spec (§4.1): the fixed-point scaling factor, 18 decimal
places (`FixedPoint.FP_SCALING_FACTOR = 10**18`). -/
def SCALE : Nat := 10 ^ 18

/-- Modelled from the spec (§4.1): fixed-point multiplication truncating
toward zero at the configured scale (`FixedPoint.mul`). -/
def fpMul (a b : Nat) : Nat := a * b / SCALE

/-- Modelled from the spec (§4.1): fixed-point division truncating toward
zero (`FixedPoint.div`); callers never pass a zero divisor (the ledger
guards zero token counts, and the fee multiplier is kept positive). -/
def fpDiv (a b : Nat) : Nat := a * SCALE / b

/-- One sponsor's position record (`struct PositionData`, source lines 29-39). -/
structure PositionData where
  tokensOutstanding : Nat
  withdrawalRequestPassTimestamp : Nat
  withdrawalRequestAmount : Nat
  rawCollateral : Nat
  transferPositionRequestPassTimestamp : Nat
  deriving DecidableEq, Repr

/-- The zeroed record a Solidity `mapping` returns for an untouched key, and
the result of `delete positions[sponsor]`. -/
def emptyPosition : PositionData :=
  { tokensOutstanding := 0
    withdrawalRequestPassTimestamp := 0
    withdrawalRequestAmount := 0
    rawCollateral := 0
    transferPositionRequestPassTimestamp := 0 }

/-- Contract storage relevant to the ledger.  `positions` is the sponsor
mapping (sponsor addresses are modelled as `Nat`); `sponsors` records every
key the ledger has written, so that sums over "all positions" are finite
(keys outside `sponsors` hold `emptyPosition`).  The configuration constants
fixed at construction are carried along unchanged. -/
structure LedgerState where
  positions : Nat → PositionData
  sponsors : Finset Nat
  totalTokensOutstanding : Nat
  rawTotalPositionCollateral : Nat
  cumulativeFeeMultiplier : Nat
  minSponsorTokens : Nat
  withdrawalLiveness : Nat
  expirationTimestamp : Nat

/-- The errors (revert reasons) of the ledger operations.  Names follow the
`require` messages of the source and the spec's error vocabulary. -/
inductive Err where
  | pendingWithdrawal
  | noCollateral
  | invalidCollateralAmount
  | crBelowGCR
  | invalidWithdrawRequest
  | noPendingWithdrawal
  | insufficientCollateral
  | belowMinimumSponsor
  | invalidTokenAmount
  | pendingTransfer
  | requestExpiresPostExpiry
  | sponsorAlreadyHasPosition
  | invalidTransferRequest
  | noPendingTransfer
  | divideByZero
  | underflow
  | invalidFeeMultiplier
  deriving DecidableEq, Repr

/-- Modelled from the spec (§4.2): `_getFeeAdjustedCollateral`, the
fee-adjusted value of a raw collateral counter under the cumulative fee
multiplier. -/
def getFeeAdjustedCollateral (rawCollateral mult : Nat) : Nat :=
  fpMul rawCollateral mult

/-- Modelled from the spec (§4.2): the raw-counter change equivalent to a
desired fee-adjusted amount (`_convertToRawCollateral`). -/
def convertToRawCollateral (amount mult : Nat) : Nat :=
  fpDiv amount mult

/-- Fee-adjusted collateral of a sponsor's position in a given state. -/
def adjCollateralOf (st : LedgerState) (sponsor : Nat) : Nat :=
  getFeeAdjustedCollateral (st.positions sponsor).rawCollateral st.cumulativeFeeMultiplier

/-- Source lines 615-625, `_getCollateralizationRatio`: zero tokens give
ratio zero (never dividing), otherwise truncating fixed-point division. -/
def getCollateralizationRatio (collateral numTokens : Nat) : Nat :=
  if numTokens = 0 then 0 else fpDiv collateral numTokens

/-- Source lines 600-613, `_checkCollateralization`: the candidate
`(collateral, numTokens)` ratio is not below the current global ratio
(`!global.isGreaterThan(thisChange)`). -/
def checkCollateralization (st : LedgerState) (collateral numTokens : Nat) : Bool :=
  decide (getCollateralizationRatio
      (getFeeAdjustedCollateral st.rawTotalPositionCollateral st.cumulativeFeeMultiplier)
      st.totalTokensOutstanding
    ≤ getCollateralizationRatio collateral numTokens)

/-- Source lines 351-386, `create`.  The `require` checks appear in source
order: the dual collateralization check, the pending-withdrawal check, then
the minimum-size check for brand-new positions.  The collateral increment is
the spec-modelled `_incrementCollateralBalances`: the same raw delta is added
to the position counter and to the aggregate counter under one multiplier
snapshot. -/
def create (sponsor collateralAmount numTokens : Nat) (st : LedgerState) :
    Except Err LedgerState :=
  let pos := st.positions sponsor
  let m := st.cumulativeFeeMultiplier
  if ¬ (checkCollateralization st
          (getFeeAdjustedCollateral pos.rawCollateral m + collateralAmount)
          (pos.tokensOutstanding + numTokens)
        || checkCollateralization st collateralAmount numTokens) then
    .error .insufficientCollateral
  else if pos.withdrawalRequestPassTimestamp ≠ 0 then
    .error .pendingWithdrawal
  else if pos.tokensOutstanding = 0 ∧ numTokens < st.minSponsorTokens then
    .error .belowMinimumSponsor
  else
    let d := convertToRawCollateral collateralAmount m
    .ok { st with
      positions := Function.update st.positions sponsor
        { pos with
          rawCollateral := pos.rawCollateral + d
          tokensOutstanding := pos.tokensOutstanding + numTokens }
      sponsors := insert sponsor st.sponsors
      rawTotalPositionCollateral := st.rawTotalPositionCollateral + d
      totalTokensOutstanding := st.totalTokensOutstanding + numTokens }

/-- Source lines 205-221, `depositTo`.  The `noPendingWithdrawal(sponsor)`
modifier looks the position up through `_getPositionData`, whose
`onlyCollateralizedPosition` check runs first; then the pending-withdrawal
check, then the body's positive-amount check.  The caller only supplies the
funds, so it does not appear in the ledger-state transition. -/
def depositTo (sponsor collateralAmount : Nat) (st : LedgerState) :
    Except Err LedgerState :=
  let pos := st.positions sponsor
  let m := st.cumulativeFeeMultiplier
  if ¬ 0 < getFeeAdjustedCollateral pos.rawCollateral m then
    .error .noCollateral
  else if pos.withdrawalRequestPassTimestamp ≠ 0 then
    .error .pendingWithdrawal
  else if collateralAmount = 0 then
    .error .invalidCollateralAmount
  else
    let d := convertToRawCollateral collateralAmount m
    .ok { st with
      positions := Function.update st.positions sponsor
        { pos with rawCollateral := pos.rawCollateral + d }
      sponsors := insert sponsor st.sponsors
      rawTotalPositionCollateral := st.rawTotalPositionCollateral + d }

/-- Source lines 229-232, `deposit`: a thin wrapper over `depositTo` with the
caller as the sponsor. -/
def deposit (sponsor collateralAmount : Nat) (st : LedgerState) :
    Except Err LedgerState :=
  depositTo sponsor collateralAmount st

/-- Source lines 241-262, `withdraw`, inlining lines 568-575
(`_decrementCollateralBalancesCheckGCR`): the position's raw counter is
decremented first, the position's collateralization is checked against the
global ratio computed from the still-undecremented aggregate, and only then
is the aggregate decremented.  Returns the fee-adjusted decrease of the
aggregate counter (the amount actually transferred out). -/
def withdraw (sponsor collateralAmount : Nat) (st : LedgerState) :
    Except Err (LedgerState × Nat) :=
  let pos := st.positions sponsor
  let m := st.cumulativeFeeMultiplier
  if ¬ 0 < getFeeAdjustedCollateral pos.rawCollateral m then
    .error .noCollateral
  else if pos.withdrawalRequestPassTimestamp ≠ 0 then
    .error .pendingWithdrawal
  else if collateralAmount = 0 then
    .error .invalidCollateralAmount
  else
    let d := convertToRawCollateral collateralAmount m
    if pos.rawCollateral < d then
      .error .insufficientCollateral
    else
      let pos' := { pos with rawCollateral := pos.rawCollateral - d }
      if ¬ checkCollateralization st
            (getFeeAdjustedCollateral pos'.rawCollateral m) pos'.tokensOutstanding then
        .error .crBelowGCR
      else if st.rawTotalPositionCollateral < d then
        .error .insufficientCollateral
      else
        let T := st.rawTotalPositionCollateral
        .ok ({ st with
          positions := Function.update st.positions sponsor pos'
          sponsors := insert sponsor st.sponsors
          rawTotalPositionCollateral := T - d },
          getFeeAdjustedCollateral T m - getFeeAdjustedCollateral (T - d) m)

/-- Source lines 269-289, `requestWithdrawal`: records
`{amount, now + withdrawalLiveness}` on the caller's position. -/
def requestWithdrawal (sponsor now collateralAmount : Nat) (st : LedgerState) :
    Except Err LedgerState :=
  let pos := st.positions sponsor
  let m := st.cumulativeFeeMultiplier
  if ¬ 0 < getFeeAdjustedCollateral pos.rawCollateral m then
    .error .noCollateral
  else if pos.withdrawalRequestPassTimestamp ≠ 0 then
    .error .pendingWithdrawal
  else if ¬ (0 < collateralAmount ∧
      collateralAmount ≤ getFeeAdjustedCollateral pos.rawCollateral m) then
    .error .invalidCollateralAmount
  else
    .ok { st with
      positions := Function.update st.positions sponsor
        { pos with
          withdrawalRequestPassTimestamp := now + st.withdrawalLiveness
          withdrawalRequestAmount := collateralAmount }
      sponsors := insert sponsor st.sponsors }

/-- Source lines 298-328, `withdrawPassedRequest`, inlining lines 557-563
(`_decrementCollateralBalances`): withdraws the requested amount capped at
the current fee-adjusted collateral, clears the request, and returns the
fee-adjusted decrease of the aggregate counter. -/
def withdrawPassedRequest (sponsor now : Nat) (st : LedgerState) :
    Except Err (LedgerState × Nat) :=
  let pos := st.positions sponsor
  let m := st.cumulativeFeeMultiplier
  if ¬ 0 < getFeeAdjustedCollateral pos.rawCollateral m then
    .error .noCollateral
  else if ¬ (pos.withdrawalRequestPassTimestamp ≠ 0 ∧
      pos.withdrawalRequestPassTimestamp ≤ now) then
    .error .invalidWithdrawRequest
  else
    let amountToWithdraw :=
      if getFeeAdjustedCollateral pos.rawCollateral m < pos.withdrawalRequestAmount then
        getFeeAdjustedCollateral pos.rawCollateral m
      else pos.withdrawalRequestAmount
    let d := convertToRawCollateral amountToWithdraw m
    if pos.rawCollateral < d then
      .error .insufficientCollateral
    else if st.rawTotalPositionCollateral < d then
      .error .insufficientCollateral
    else
      let T := st.rawTotalPositionCollateral
      .ok ({ st with
        positions := Function.update st.positions sponsor
          { pos with
            rawCollateral := pos.rawCollateral - d
            withdrawalRequestAmount := 0
            withdrawalRequestPassTimestamp := 0 }
        sponsors := insert sponsor st.sponsors
        rawTotalPositionCollateral := T - d },
        getFeeAdjustedCollateral T m - getFeeAdjustedCollateral (T - d) m)

/-- Source lines 333-341, `cancelWithdrawal`: requires a pending request and
resets both withdrawal-request fields (lines 538-542,
`_resetWithdrawalRequest`). -/
def cancelWithdrawal (sponsor : Nat) (st : LedgerState) :
    Except Err LedgerState :=
  let pos := st.positions sponsor
  let m := st.cumulativeFeeMultiplier
  if ¬ 0 < getFeeAdjustedCollateral pos.rawCollateral m then
    .error .noCollateral
  else if pos.withdrawalRequestPassTimestamp = 0 then
    .error .noPendingWithdrawal
  else
    .ok { st with
      positions := Function.update st.positions sponsor
        { pos with
          withdrawalRequestAmount := 0
          withdrawalRequestPassTimestamp := 0 }
      sponsors := insert sponsor st.sponsors }

/-- Source lines 473-491, `_deleteSponsorPosition`: removes the position's
raw collateral and tokens from the aggregates, zeroes the record, and
returns the decrease of the fee-adjusted aggregate across the deletion. -/
def deleteSponsorPosition (sponsor : Nat) (st : LedgerState) :
    Except Err (LedgerState × Nat) :=
  let pos := st.positions sponsor
  let m := st.cumulativeFeeMultiplier
  if ¬ 0 < getFeeAdjustedCollateral pos.rawCollateral m then
    .error .noCollateral
  else if st.rawTotalPositionCollateral < pos.rawCollateral then
    .error .underflow
  else if st.totalTokensOutstanding < pos.tokensOutstanding then
    .error .underflow
  else
    let T' := st.rawTotalPositionCollateral - pos.rawCollateral
    .ok ({ st with
      positions := Function.update st.positions sponsor emptyPosition
      sponsors := insert sponsor st.sponsors
      rawTotalPositionCollateral := T'
      totalTokensOutstanding := st.totalTokensOutstanding - pos.tokensOutstanding },
      getFeeAdjustedCollateral st.rawTotalPositionCollateral m -
        getFeeAdjustedCollateral T' m)

/-- Source lines 396-433, `redeem`: full redemption deletes the position;
partial redemption removes the proportional fee-adjusted collateral and
enforces the minimum position size on the remainder. -/
def redeem (sponsor numTokens : Nat) (st : LedgerState) :
    Except Err (LedgerState × Nat) :=
  let pos := st.positions sponsor
  let m := st.cumulativeFeeMultiplier
  if ¬ 0 < getFeeAdjustedCollateral pos.rawCollateral m then
    .error .noCollateral
  else if pos.withdrawalRequestPassTimestamp ≠ 0 then
    .error .pendingWithdrawal
  else if pos.tokensOutstanding < numTokens then
    .error .invalidTokenAmount
  else if pos.tokensOutstanding = 0 then
    .error .divideByZero
  else
    let fractionRedeemed := fpDiv numTokens pos.tokensOutstanding
    let collateralRedeemed :=
      fpMul fractionRedeemed (getFeeAdjustedCollateral pos.rawCollateral m)
    if pos.tokensOutstanding = numTokens then
      deleteSponsorPosition sponsor st
    else
      let d := convertToRawCollateral collateralRedeemed m
      if pos.rawCollateral < d then
        .error .insufficientCollateral
      else if st.rawTotalPositionCollateral < d then
        .error .insufficientCollateral
      else
        let newTokenCount := pos.tokensOutstanding - numTokens
        if newTokenCount < st.minSponsorTokens then
          .error .belowMinimumSponsor
        else if st.totalTokensOutstanding < numTokens then
          .error .underflow
        else
          let T := st.rawTotalPositionCollateral
          .ok ({ st with
            positions := Function.update st.positions sponsor
              { pos with
                rawCollateral := pos.rawCollateral - d
                tokensOutstanding := newTokenCount }
            sponsors := insert sponsor st.sponsors
            rawTotalPositionCollateral := T - d
            totalTokensOutstanding := st.totalTokensOutstanding - numTokens },
            getFeeAdjustedCollateral T m - getFeeAdjustedCollateral (T - d) m)

/-- Source lines 136-148, `requestTransferPosition`: records
`now + withdrawalLiveness` as the transfer-request pass timestamp, provided
it falls before the expiration timestamp. -/
def requestTransferPosition (sponsor now : Nat) (st : LedgerState) :
    Except Err LedgerState :=
  let pos := st.positions sponsor
  let m := st.cumulativeFeeMultiplier
  if ¬ 0 < getFeeAdjustedCollateral pos.rawCollateral m then
    .error .noCollateral
  else if pos.transferPositionRequestPassTimestamp ≠ 0 then
    .error .pendingTransfer
  else if ¬ now + st.withdrawalLiveness < st.expirationTimestamp then
    .error .requestExpiresPostExpiry
  else
    .ok { st with
      positions := Function.update st.positions sponsor
        { pos with transferPositionRequestPassTimestamp := now + st.withdrawalLiveness }
      sponsors := insert sponsor st.sponsors }

/-- Source lines 156-183, `transferPositionPassedRequest`: the
`noPendingWithdrawal(msg.sender)` modifier (collateralized-position lookup,
then pending-withdrawal check) runs first, then the recipient's fee-adjusted
collateral must be zero and the caller's transfer request must exist and
have passed.  The record is copied to the new key with the transfer request
cleared, and the old key is deleted — in that order. -/
def transferPositionPassedRequest (sponsor now newSponsor : Nat) (st : LedgerState) :
    Except Err LedgerState :=
  let pos := st.positions sponsor
  let m := st.cumulativeFeeMultiplier
  if ¬ 0 < getFeeAdjustedCollateral pos.rawCollateral m then
    .error .noCollateral
  else if pos.withdrawalRequestPassTimestamp ≠ 0 then
    .error .pendingWithdrawal
  else if getFeeAdjustedCollateral (st.positions newSponsor).rawCollateral m ≠ 0 then
    .error .sponsorAlreadyHasPosition
  else if ¬ (pos.transferPositionRequestPassTimestamp ≠ 0 ∧
      pos.transferPositionRequestPassTimestamp ≤ now) then
    .error .invalidTransferRequest
  else
    .ok { st with
      positions := Function.update
        (Function.update st.positions newSponsor
          { pos with transferPositionRequestPassTimestamp := 0 })
        sponsor emptyPosition
      sponsors := insert sponsor (insert newSponsor st.sponsors) }

/-- Source lines 188-196, `cancelTransferPosition`: requires a pending
transfer request and resets its pass timestamp. -/
def cancelTransferPosition (sponsor : Nat) (st : LedgerState) :
    Except Err LedgerState :=
  let pos := st.positions sponsor
  let m := st.cumulativeFeeMultiplier
  if ¬ 0 < getFeeAdjustedCollateral pos.rawCollateral m then
    .error .noCollateral
  else if pos.transferPositionRequestPassTimestamp = 0 then
    .error .noPendingTransfer
  else
    .ok { st with
      positions := Function.update st.positions sponsor
        { pos with transferPositionRequestPassTimestamp := 0 }
      sponsors := insert sponsor st.sponsors }

/-- Modelled from the spec (§4.2, §3): the fee-accrual collaborator owns the
cumulative fee multiplier, which starts at 1.0 and only ever decreases
(never to zero, and never during a ledger operation).  This environment step
installs a new, smaller or equal, positive multiplier between operations. -/
def accrueFees (newMultiplier : Nat) (st : LedgerState) : Except Err LedgerState :=
  if 0 < newMultiplier ∧ newMultiplier ≤ st.cumulativeFeeMultiplier then
    .ok { st with cumulativeFeeMultiplier := newMultiplier }
  else
    .error .invalidFeeMultiplier

/-- One step of the ledger: a public operation of the contract or the
fee-accrual environment step. -/
inductive Op where
  | create (sponsor collateralAmount numTokens : Nat)
  | depositTo (sponsor collateralAmount : Nat)
  | withdraw (sponsor collateralAmount : Nat)
  | requestWithdrawal (sponsor now collateralAmount : Nat)
  | withdrawPassedRequest (sponsor now : Nat)
  | cancelWithdrawal (sponsor : Nat)
  | redeem (sponsor numTokens : Nat)
  | requestTransferPosition (sponsor now : Nat)
  | transferPositionPassedRequest (sponsor now newSponsor : Nat)
  | cancelTransferPosition (sponsor : Nat)
  | accrueFees (newMultiplier : Nat)
  deriving DecidableEq, Repr

/-- Executes one step, discarding the withdrawn-amount outputs. -/
def exec (op : Op) (st : LedgerState) : Except Err LedgerState :=
  match op with
  | .create sponsor c n => create sponsor c n st
  | .depositTo sponsor c => depositTo sponsor c st
  | .withdraw sponsor c => (withdraw sponsor c st).map Prod.fst
  | .requestWithdrawal sponsor now c => requestWithdrawal sponsor now c st
  | .withdrawPassedRequest sponsor now => (withdrawPassedRequest sponsor now st).map Prod.fst
  | .cancelWithdrawal sponsor => cancelWithdrawal sponsor st
  | .redeem sponsor n => (redeem sponsor n st).map Prod.fst
  | .requestTransferPosition sponsor now => requestTransferPosition sponsor now st
  | .transferPositionPassedRequest sponsor now ns => transferPositionPassedRequest sponsor now ns st
  | .cancelTransferPosition sponsor => cancelTransferPosition sponsor st
  | .accrueFees newMultiplier => accrueFees newMultiplier st

/-- Runs a sequence of steps, failing if any step fails (every operation is
atomic, so a failed operation contributes no state change and the sequence
of *successful* operations is exactly a successful trace). -/
def execTrace : List Op → LedgerState → Except Err LedgerState
  | [], st => .ok st
  | op :: ops, st =>
    match exec op st with
    | .error e => .error e
    | .ok st' => execTrace ops st'

/-- The freshly deployed contract: empty ledger, multiplier 1.0, and the
construction-time configuration. -/
def initState (minSponsorTokens withdrawalLiveness expirationTimestamp : Nat) :
    LedgerState :=
  { positions := fun _ => emptyPosition
    sponsors := ∅
    totalTokensOutstanding := 0
    rawTotalPositionCollateral := 0
    cumulativeFeeMultiplier := SCALE
    minSponsorTokens := minSponsorTokens
    withdrawalLiveness := withdrawalLiveness
    expirationTimestamp := expirationTimestamp }

/-- Sum of raw collateral over all recorded positions. -/
def sumRawCollateral (st : LedgerState) : Nat :=
  ∑ a ∈ st.sponsors, (st.positions a).rawCollateral

/-- Sum of fee-adjusted collateral over all recorded positions (absent
positions contribute zero, so this is also the sum over live positions). -/
def sumAdjCollateral (st : LedgerState) : Nat :=
  ∑ a ∈ st.sponsors, getFeeAdjustedCollateral (st.positions a).rawCollateral
    st.cumulativeFeeMultiplier


/-- The fixed-point scale is positive. -/
lemma SCALE_pos : 0 < SCALE := by norm_num [SCALE]

/-- Fee adjustment is monotone in the raw amount. -/
lemma getFeeAdjustedCollateral_mono {a b : Nat} (m : Nat) (h : a ≤ b) :
    getFeeAdjustedCollateral a m ≤ getFeeAdjustedCollateral b m :=
  Nat.div_le_div_right (Nat.mul_le_mul_right m h)

/-- Fee adjustment is monotone in the multiplier. -/
lemma getFeeAdjustedCollateral_mult_mono (r : Nat) {m m' : Nat} (h : m' ≤ m) :
    getFeeAdjustedCollateral r m' ≤ getFeeAdjustedCollateral r m :=
  Nat.div_le_div_right (Nat.mul_le_mul_left r h)

/-- With the initial multiplier 1.0, fee adjustment is the identity. -/
lemma getFeeAdjustedCollateral_scale (x : Nat) :
    getFeeAdjustedCollateral x SCALE = x := by
  simp [getFeeAdjustedCollateral, fpMul, Nat.mul_div_cancel _ SCALE_pos]

/-- A zero raw counter has zero fee-adjusted value. -/
lemma getFeeAdjustedCollateral_zero (m : Nat) :
    getFeeAdjustedCollateral 0 m = 0 := by
  simp [getFeeAdjustedCollateral, fpMul]

/-- Removing at most the fee-adjusted balance never underflows the raw
counter: the raw equivalent of the amount is at most the raw balance. -/
lemma convertToRawCollateral_le {amount r m : Nat} (hm : 0 < m)
    (h : amount ≤ getFeeAdjustedCollateral r m) :
    convertToRawCollateral amount m ≤ r := by
  have h1 : amount * SCALE ≤ r * m := by
    calc amount * SCALE ≤ (r * m / SCALE) * SCALE := Nat.mul_le_mul_right _ h
      _ ≤ r * m := Nat.div_mul_le_self _ _
  calc amount * SCALE / m ≤ r * m / m := Nat.div_le_div_right h1
    _ = r := Nat.mul_div_cancel r hm

/-- The collateralization ratio is monotone in the collateral. -/
lemma getCollateralizationRatio_mono {c c' : Nat} (t : Nat) (h : c ≤ c') :
    getCollateralizationRatio c t ≤ getCollateralizationRatio c' t := by
  unfold getCollateralizationRatio
  split
  · exact le_refl _
  · exact Nat.div_le_div_right (Nat.mul_le_mul_right _ h)

/-- Splits the raw-collateral sum at one sponsor, for position maps that
vanish outside the recorded key set. -/
lemma sum_raw_split (A : Finset Nat) (p : Nat → PositionData) (s : Nat)
    (h0 : ∀ a ∉ A, p a = emptyPosition) :
    ∑ a ∈ A, (p a).rawCollateral
      = (p s).rawCollateral + ∑ a ∈ A.erase s, (p a).rawCollateral := by
  by_cases hs : s ∈ A
  · exact (Finset.add_sum_erase A _ hs).symm
  · rw [Finset.erase_eq_of_not_mem hs, h0 s hs]
    simp [emptyPosition]

/-- Splits the raw-collateral sum at one sponsor whose raw collateral is
zero (no membership information needed). -/
lemma sum_raw_split_zero (A : Finset Nat) (p : Nat → PositionData) (s : Nat)
    (hz : (p s).rawCollateral = 0) :
    ∑ a ∈ A, (p a).rawCollateral = ∑ a ∈ A.erase s, (p a).rawCollateral := by
  by_cases hs : s ∈ A
  · rw [← Finset.add_sum_erase A _ hs, hz, Nat.zero_add]
  · rw [Finset.erase_eq_of_not_mem hs]

/-- The raw-collateral sum after writing one sponsor's record. -/
lemma sum_raw_update (A : Finset Nat) (p : Nat → PositionData) (s : Nat)
    (v : PositionData) :
    ∑ a ∈ insert s A, (Function.update p s v a).rawCollateral
      = v.rawCollateral + ∑ a ∈ A.erase s, (p a).rawCollateral := by
  rw [← Finset.add_sum_erase _ _ (Finset.mem_insert_self s A)]
  rw [Finset.erase_insert_eq_erase]
  congr 1
  · rw [Function.update_same]
  · exact Finset.sum_congr rfl fun a ha => by
      rw [Function.update_noteq (Finset.ne_of_mem_erase ha)]


lemma create_ok {s c n : Nat} {st st' : LedgerState}
    (h : create s c n st = .ok st') :
    (checkCollateralization st
        (getFeeAdjustedCollateral (st.positions s).rawCollateral st.cumulativeFeeMultiplier + c)
        ((st.positions s).tokensOutstanding + n)
      || checkCollateralization st c n) = true ∧
    (st.positions s).withdrawalRequestPassTimestamp = 0 ∧
    ¬ ((st.positions s).tokensOutstanding = 0 ∧ n < st.minSponsorTokens) ∧
    st' = { st with
      positions := Function.update st.positions s
        { st.positions s with
          rawCollateral := (st.positions s).rawCollateral +
            convertToRawCollateral c st.cumulativeFeeMultiplier
          tokensOutstanding := (st.positions s).tokensOutstanding + n }
      sponsors := insert s st.sponsors
      rawTotalPositionCollateral := st.rawTotalPositionCollateral +
        convertToRawCollateral c st.cumulativeFeeMultiplier
      totalTokensOutstanding := st.totalTokensOutstanding + n } := by
  simp only [create] at h
  split at h
  · exact Except.noConfusion h
  split at h
  · exact Except.noConfusion h
  split at h
  · exact Except.noConfusion h
  injection h with h
  rename_i h1 h2 h3
  exact ⟨of_not_not h1, of_not_not h2, h3, h.symm⟩

lemma depositTo_ok {s c : Nat} {st st' : LedgerState}
    (h : depositTo s c st = .ok st') :
    0 < getFeeAdjustedCollateral (st.positions s).rawCollateral st.cumulativeFeeMultiplier ∧
    (st.positions s).withdrawalRequestPassTimestamp = 0 ∧
    c ≠ 0 ∧
    st' = { st with
      positions := Function.update st.positions s
        { st.positions s with
          rawCollateral := (st.positions s).rawCollateral +
            convertToRawCollateral c st.cumulativeFeeMultiplier }
      sponsors := insert s st.sponsors
      rawTotalPositionCollateral := st.rawTotalPositionCollateral +
        convertToRawCollateral c st.cumulativeFeeMultiplier } := by
  simp only [depositTo] at h
  split at h
  · exact Except.noConfusion h
  split at h
  · exact Except.noConfusion h
  split at h
  · exact Except.noConfusion h
  injection h with h
  rename_i h1 h2 h3
  exact ⟨of_not_not h1, of_not_not h2, h3, h.symm⟩

lemma withdraw_ok {s c : Nat} {st st' : LedgerState} {w : Nat}
    (h : withdraw s c st = .ok (st', w)) :
    0 < getFeeAdjustedCollateral (st.positions s).rawCollateral st.cumulativeFeeMultiplier ∧
    (st.positions s).withdrawalRequestPassTimestamp = 0 ∧
    c ≠ 0 ∧
    convertToRawCollateral c st.cumulativeFeeMultiplier ≤ (st.positions s).rawCollateral ∧
    checkCollateralization st
      (getFeeAdjustedCollateral
        ((st.positions s).rawCollateral - convertToRawCollateral c st.cumulativeFeeMultiplier)
        st.cumulativeFeeMultiplier)
      (st.positions s).tokensOutstanding = true ∧
    convertToRawCollateral c st.cumulativeFeeMultiplier ≤ st.rawTotalPositionCollateral ∧
    st' = { st with
      positions := Function.update st.positions s
        { st.positions s with
          rawCollateral := (st.positions s).rawCollateral -
            convertToRawCollateral c st.cumulativeFeeMultiplier }
      sponsors := insert s st.sponsors
      rawTotalPositionCollateral := st.rawTotalPositionCollateral -
        convertToRawCollateral c st.cumulativeFeeMultiplier } ∧
    w = getFeeAdjustedCollateral st.rawTotalPositionCollateral st.cumulativeFeeMultiplier -
        getFeeAdjustedCollateral
          (st.rawTotalPositionCollateral - convertToRawCollateral c st.cumulativeFeeMultiplier)
          st.cumulativeFeeMultiplier := by
  simp only [withdraw] at h
  split at h
  · exact Except.noConfusion h
  split at h
  · exact Except.noConfusion h
  split at h
  · exact Except.noConfusion h
  split at h
  · exact Except.noConfusion h
  split at h
  · exact Except.noConfusion h
  split at h
  · exact Except.noConfusion h
  injection h with h
  injection h with hst hw
  rename_i h1 h2 h3 h4 h5 h6
  exact ⟨of_not_not h1, of_not_not h2, h3, Nat.not_lt.mp h4, of_not_not h5,
    Nat.not_lt.mp h6, hst.symm, hw.symm⟩

lemma requestWithdrawal_ok {s now c : Nat} {st st' : LedgerState}
    (h : requestWithdrawal s now c st = .ok st') :
    0 < getFeeAdjustedCollateral (st.positions s).rawCollateral st.cumulativeFeeMultiplier ∧
    (st.positions s).withdrawalRequestPassTimestamp = 0 ∧
    (0 < c ∧
      c ≤ getFeeAdjustedCollateral (st.positions s).rawCollateral st.cumulativeFeeMultiplier) ∧
    st' = { st with
      positions := Function.update st.positions s
        { st.positions s with
          withdrawalRequestPassTimestamp := now + st.withdrawalLiveness
          withdrawalRequestAmount := c }
      sponsors := insert s st.sponsors } := by
  simp only [requestWithdrawal] at h
  split at h
  · exact Except.noConfusion h
  split at h
  · exact Except.noConfusion h
  split at h
  · exact Except.noConfusion h
  injection h with h
  rename_i h1 h2 h3
  exact ⟨of_not_not h1, of_not_not h2, of_not_not h3, h.symm⟩

lemma ite_lt_min (a b : Nat) : (if b < a then b else a) = min a b := by
  split
  · exact (Nat.min_eq_right (Nat.le_of_lt (by assumption))).symm
  · exact (Nat.min_eq_left (Nat.not_lt.mp (by assumption))).symm

lemma withdrawPassedRequest_ok {s now : Nat} {st st' : LedgerState} {w : Nat}
    (h : withdrawPassedRequest s now st = .ok (st', w)) :
    0 < getFeeAdjustedCollateral (st.positions s).rawCollateral st.cumulativeFeeMultiplier ∧
    ((st.positions s).withdrawalRequestPassTimestamp ≠ 0 ∧
      (st.positions s).withdrawalRequestPassTimestamp ≤ now) ∧
    convertToRawCollateral
        (min (st.positions s).withdrawalRequestAmount
          (getFeeAdjustedCollateral (st.positions s).rawCollateral st.cumulativeFeeMultiplier))
        st.cumulativeFeeMultiplier ≤ (st.positions s).rawCollateral ∧
    convertToRawCollateral
        (min (st.positions s).withdrawalRequestAmount
          (getFeeAdjustedCollateral (st.positions s).rawCollateral st.cumulativeFeeMultiplier))
        st.cumulativeFeeMultiplier ≤ st.rawTotalPositionCollateral ∧
    st' = { st with
      positions := Function.update st.positions s
        { st.positions s with
          rawCollateral := (st.positions s).rawCollateral -
            convertToRawCollateral
              (min (st.positions s).withdrawalRequestAmount
          (getFeeAdjustedCollateral (st.positions s).rawCollateral st.cumulativeFeeMultiplier))
              st.cumulativeFeeMultiplier
          withdrawalRequestAmount := 0
          withdrawalRequestPassTimestamp := 0 }
      sponsors := insert s st.sponsors
      rawTotalPositionCollateral := st.rawTotalPositionCollateral -
        convertToRawCollateral
          (min (st.positions s).withdrawalRequestAmount
          (getFeeAdjustedCollateral (st.positions s).rawCollateral st.cumulativeFeeMultiplier))
          st.cumulativeFeeMultiplier } ∧
    w = getFeeAdjustedCollateral st.rawTotalPositionCollateral st.cumulativeFeeMultiplier -
        getFeeAdjustedCollateral
          (st.rawTotalPositionCollateral -
            convertToRawCollateral
              (min (st.positions s).withdrawalRequestAmount
          (getFeeAdjustedCollateral (st.positions s).rawCollateral st.cumulativeFeeMultiplier))
              st.cumulativeFeeMultiplier)
          st.cumulativeFeeMultiplier := by
  simp only [withdrawPassedRequest] at h
  rw [ite_lt_min] at h
  split at h
  · exact Except.noConfusion h
  split at h
  · exact Except.noConfusion h
  split at h
  · exact Except.noConfusion h
  split at h
  · exact Except.noConfusion h
  injection h with h
  injection h with hst hw
  rename_i h1 h2 h3 h4
  exact ⟨of_not_not h1, of_not_not h2, Nat.not_lt.mp h3, Nat.not_lt.mp h4, hst.symm, hw.symm⟩

lemma cancelWithdrawal_ok {s : Nat} {st st' : LedgerState}
    (h : cancelWithdrawal s st = .ok st') :
    0 < getFeeAdjustedCollateral (st.positions s).rawCollateral st.cumulativeFeeMultiplier ∧
    (st.positions s).withdrawalRequestPassTimestamp ≠ 0 ∧
    st' = { st with
      positions := Function.update st.positions s
        { st.positions s with
          withdrawalRequestAmount := 0
          withdrawalRequestPassTimestamp := 0 }
      sponsors := insert s st.sponsors } := by
  simp only [cancelWithdrawal] at h
  split at h
  · exact Except.noConfusion h
  split at h
  · exact Except.noConfusion h
  injection h with h
  rename_i h1 h2
  exact ⟨of_not_not h1, h2, h.symm⟩

lemma requestTransferPosition_ok {s now : Nat} {st st' : LedgerState}
    (h : requestTransferPosition s now st = .ok st') :
    0 < getFeeAdjustedCollateral (st.positions s).rawCollateral st.cumulativeFeeMultiplier ∧
    (st.positions s).transferPositionRequestPassTimestamp = 0 ∧
    now + st.withdrawalLiveness < st.expirationTimestamp ∧
    st' = { st with
      positions := Function.update st.positions s
        { st.positions s with
          transferPositionRequestPassTimestamp := now + st.withdrawalLiveness }
      sponsors := insert s st.sponsors } := by
  simp only [requestTransferPosition] at h
  split at h
  · exact Except.noConfusion h
  split at h
  · exact Except.noConfusion h
  split at h
  · exact Except.noConfusion h
  injection h with h
  rename_i h1 h2 h3
  exact ⟨of_not_not h1, of_not_not h2, of_not_not h3, h.symm⟩

lemma transferPositionPassedRequest_ok {s now ns : Nat} {st st' : LedgerState}
    (h : transferPositionPassedRequest s now ns st = .ok st') :
    0 < getFeeAdjustedCollateral (st.positions s).rawCollateral st.cumulativeFeeMultiplier ∧
    (st.positions s).withdrawalRequestPassTimestamp = 0 ∧
    getFeeAdjustedCollateral (st.positions ns).rawCollateral st.cumulativeFeeMultiplier = 0 ∧
    ((st.positions s).transferPositionRequestPassTimestamp ≠ 0 ∧
      (st.positions s).transferPositionRequestPassTimestamp ≤ now) ∧
    st' = { st with
      positions := Function.update
        (Function.update st.positions ns
          { st.positions s with transferPositionRequestPassTimestamp := 0 })
        s emptyPosition
      sponsors := insert s (insert ns st.sponsors) } := by
  simp only [transferPositionPassedRequest] at h
  split at h
  · exact Except.noConfusion h
  split at h
  · exact Except.noConfusion h
  split at h
  · exact Except.noConfusion h
  split at h
  · exact Except.noConfusion h
  injection h with h
  rename_i h1 h2 h3 h4
  exact ⟨of_not_not h1, of_not_not h2, of_not_not h3, of_not_not h4, h.symm⟩

lemma cancelTransferPosition_ok {s : Nat} {st st' : LedgerState}
    (h : cancelTransferPosition s st = .ok st') :
    0 < getFeeAdjustedCollateral (st.positions s).rawCollateral st.cumulativeFeeMultiplier ∧
    (st.positions s).transferPositionRequestPassTimestamp ≠ 0 ∧
    st' = { st with
      positions := Function.update st.positions s
        { st.positions s with transferPositionRequestPassTimestamp := 0 }
      sponsors := insert s st.sponsors } := by
  simp only [cancelTransferPosition] at h
  split at h
  · exact Except.noConfusion h
  split at h
  · exact Except.noConfusion h
  injection h with h
  rename_i h1 h2
  exact ⟨of_not_not h1, h2, h.symm⟩

lemma accrueFees_ok {m' : Nat} {st st' : LedgerState}
    (h : accrueFees m' st = .ok st') :
    (0 < m' ∧ m' ≤ st.cumulativeFeeMultiplier) ∧
    st' = { st with cumulativeFeeMultiplier := m' } := by
  simp only [accrueFees] at h
  split at h
  · injection h with h
    rename_i h1
    exact ⟨h1, h.symm⟩
  · exact Except.noConfusion h

lemma deleteSponsorPosition_ok {s : Nat} {st st' : LedgerState} {w : Nat}
    (h : deleteSponsorPosition s st = .ok (st', w)) :
    0 < getFeeAdjustedCollateral (st.positions s).rawCollateral st.cumulativeFeeMultiplier ∧
    (st.positions s).rawCollateral ≤ st.rawTotalPositionCollateral ∧
    (st.positions s).tokensOutstanding ≤ st.totalTokensOutstanding ∧
    st' = { st with
      positions := Function.update st.positions s emptyPosition
      sponsors := insert s st.sponsors
      rawTotalPositionCollateral :=
        st.rawTotalPositionCollateral - (st.positions s).rawCollateral
      totalTokensOutstanding :=
        st.totalTokensOutstanding - (st.positions s).tokensOutstanding } ∧
    w = getFeeAdjustedCollateral st.rawTotalPositionCollateral st.cumulativeFeeMultiplier -
        getFeeAdjustedCollateral
          (st.rawTotalPositionCollateral - (st.positions s).rawCollateral)
          st.cumulativeFeeMultiplier := by
  simp only [deleteSponsorPosition] at h
  split at h
  · exact Except.noConfusion h
  split at h
  · exact Except.noConfusion h
  split at h
  · exact Except.noConfusion h
  injection h with h
  injection h with hst hw
  rename_i h1 h2 h3
  exact ⟨of_not_not h1, Nat.not_lt.mp h2, Nat.not_lt.mp h3, hst.symm, hw.symm⟩

lemma redeem_ok {s n : Nat} {st st' : LedgerState} {w : Nat}
    (h : redeem s n st = .ok (st', w)) :
    0 < getFeeAdjustedCollateral (st.positions s).rawCollateral st.cumulativeFeeMultiplier ∧
    (st.positions s).withdrawalRequestPassTimestamp = 0 ∧
    n ≤ (st.positions s).tokensOutstanding ∧
    (st.positions s).tokensOutstanding ≠ 0 ∧
    (((st.positions s).tokensOutstanding = n ∧ deleteSponsorPosition s st = .ok (st', w)) ∨
      ((st.positions s).tokensOutstanding ≠ n ∧
        convertToRawCollateral
            (fpMul (fpDiv n (st.positions s).tokensOutstanding)
              (getFeeAdjustedCollateral (st.positions s).rawCollateral
                st.cumulativeFeeMultiplier))
            st.cumulativeFeeMultiplier ≤ (st.positions s).rawCollateral ∧
        convertToRawCollateral
            (fpMul (fpDiv n (st.positions s).tokensOutstanding)
              (getFeeAdjustedCollateral (st.positions s).rawCollateral
                st.cumulativeFeeMultiplier))
            st.cumulativeFeeMultiplier ≤ st.rawTotalPositionCollateral ∧
        st.minSponsorTokens ≤ (st.positions s).tokensOutstanding - n ∧
        n ≤ st.totalTokensOutstanding ∧
        st' = { st with
          positions := Function.update st.positions s
            { st.positions s with
              rawCollateral := (st.positions s).rawCollateral -
                convertToRawCollateral
                  (fpMul (fpDiv n (st.positions s).tokensOutstanding)
                    (getFeeAdjustedCollateral (st.positions s).rawCollateral
                      st.cumulativeFeeMultiplier))
                  st.cumulativeFeeMultiplier
              tokensOutstanding := (st.positions s).tokensOutstanding - n }
          sponsors := insert s st.sponsors
          rawTotalPositionCollateral := st.rawTotalPositionCollateral -
            convertToRawCollateral
              (fpMul (fpDiv n (st.positions s).tokensOutstanding)
                (getFeeAdjustedCollateral (st.positions s).rawCollateral
                  st.cumulativeFeeMultiplier))
              st.cumulativeFeeMultiplier
          totalTokensOutstanding := st.totalTokensOutstanding - n } ∧
        w = getFeeAdjustedCollateral st.rawTotalPositionCollateral st.cumulativeFeeMultiplier -
            getFeeAdjustedCollateral
              (st.rawTotalPositionCollateral -
                convertToRawCollateral
                  (fpMul (fpDiv n (st.positions s).tokensOutstanding)
                    (getFeeAdjustedCollateral (st.positions s).rawCollateral
                      st.cumulativeFeeMultiplier))
                  st.cumulativeFeeMultiplier)
              st.cumulativeFeeMultiplier)) := by
  simp only [redeem] at h
  split at h
  · exact Except.noConfusion h
  split at h
  · exact Except.noConfusion h
  split at h
  · exact Except.noConfusion h
  split at h
  · exact Except.noConfusion h
  rename_i h1 h2 h3 h4
  split at h
  · rename_i h5
    exact ⟨of_not_not h1, of_not_not h2, Nat.not_lt.mp h3, h4, Or.inl ⟨h5, h⟩⟩
  · rename_i h5
    split at h
    · exact Except.noConfusion h
    split at h
    · exact Except.noConfusion h
    split at h
    · exact Except.noConfusion h
    split at h
    · exact Except.noConfusion h
    injection h with h
    injection h with hst hw
    rename_i h6 h7 h8 h9
    exact ⟨of_not_not h1, of_not_not h2, Nat.not_lt.mp h3, h4, Or.inr
      ⟨h5, Nat.not_lt.mp h6, Nat.not_lt.mp h7, Nat.not_lt.mp h8, Nat.not_lt.mp h9,
        hst.symm, hw.symm⟩⟩



/-- Positions outside the recorded sponsor set are absent. -/
def OutsideEmpty (st : LedgerState) : Prop :=
  ∀ a ∉ st.sponsors, st.positions a = emptyPosition

/-- The raw aggregate counter equals the sum of the positions' raw counters. -/
def RawSolvent (st : LedgerState) : Prop :=
  st.rawTotalPositionCollateral = sumRawCollateral st

/-- The solvency invariant bundle while the fee multiplier is still 1.0. -/
def UnitInv (st : LedgerState) : Prop :=
  st.cumulativeFeeMultiplier = SCALE ∧ OutsideEmpty st ∧ RawSolvent st

/-- Every nonzero position satisfies the minimum sponsor size. -/
def MinTokens (st : LedgerState) : Prop :=
  ∀ a, 0 < (st.positions a).tokensOutstanding →
    st.minSponsorTokens ≤ (st.positions a).tokensOutstanding

/-- Steps that leave the fee multiplier at its initial value 1.0. -/
def keepsUnitMultiplier : Op → Prop
  | .accrueFees m' => m' = SCALE
  | _ => True

lemma unitInv_update {st : LedgerState} (s : Nat) (v : PositionData)
    (newT newTok : Nat) (hI : UnitInv st)
    (heq : newT + (st.positions s).rawCollateral
      = st.rawTotalPositionCollateral + v.rawCollateral) :
    UnitInv { st with
      positions := Function.update st.positions s v
      sponsors := insert s st.sponsors
      rawTotalPositionCollateral := newT
      totalTokensOutstanding := newTok } := by
  obtain ⟨hm, h0, hs⟩ := hI
  refine ⟨hm, ?_, ?_⟩
  · intro a ha
    rw [Finset.mem_insert] at ha
    push_neg at ha
    show Function.update st.positions s v a = emptyPosition
    rw [Function.update_noteq ha.1]
    exact h0 a ha.2
  · show newT = ∑ a ∈ insert s st.sponsors, (Function.update st.positions s v a).rawCollateral
    rw [sum_raw_update]
    have hsplit := sum_raw_split st.sponsors st.positions s h0
    have hs' : st.rawTotalPositionCollateral
        = ∑ a ∈ st.sponsors, (st.positions a).rawCollateral := hs
    omega

lemma create_unitInv {s c n : Nat} {st st' : LedgerState}
    (h : create s c n st = .ok st') (hI : UnitInv st) : UnitInv st' := by
  obtain ⟨-, -, -, rfl⟩ := create_ok h
  exact unitInv_update s _ _ _ hI (by simp; omega)

lemma depositTo_unitInv {s c : Nat} {st st' : LedgerState}
    (h : depositTo s c st = .ok st') (hI : UnitInv st) : UnitInv st' := by
  obtain ⟨-, -, -, rfl⟩ := depositTo_ok h
  exact unitInv_update s _ _ _ hI (by simp; omega)

lemma withdraw_unitInv {s c : Nat} {st st' : LedgerState} {w : Nat}
    (h : withdraw s c st = .ok (st', w)) (hI : UnitInv st) : UnitInv st' := by
  obtain ⟨-, -, -, hd, -, hT, rfl, -⟩ := withdraw_ok h
  exact unitInv_update s _ _ _ hI (by simp; omega)

lemma requestWithdrawal_unitInv {s now c : Nat} {st st' : LedgerState}
    (h : requestWithdrawal s now c st = .ok st') (hI : UnitInv st) : UnitInv st' := by
  obtain ⟨-, -, -, rfl⟩ := requestWithdrawal_ok h
  exact unitInv_update s _ _ _ hI (by simp)

lemma withdrawPassedRequest_unitInv {s now : Nat} {st st' : LedgerState} {w : Nat}
    (h : withdrawPassedRequest s now st = .ok (st', w)) (hI : UnitInv st) : UnitInv st' := by
  obtain ⟨-, -, hd, hT, rfl, -⟩ := withdrawPassedRequest_ok h
  exact unitInv_update s _ _ _ hI (by simp; omega)

lemma cancelWithdrawal_unitInv {s : Nat} {st st' : LedgerState}
    (h : cancelWithdrawal s st = .ok st') (hI : UnitInv st) : UnitInv st' := by
  obtain ⟨-, -, rfl⟩ := cancelWithdrawal_ok h
  exact unitInv_update s _ _ _ hI (by simp)

lemma requestTransferPosition_unitInv {s now : Nat} {st st' : LedgerState}
    (h : requestTransferPosition s now st = .ok st') (hI : UnitInv st) : UnitInv st' := by
  obtain ⟨-, -, -, rfl⟩ := requestTransferPosition_ok h
  exact unitInv_update s _ _ _ hI (by simp)

lemma cancelTransferPosition_unitInv {s : Nat} {st st' : LedgerState}
    (h : cancelTransferPosition s st = .ok st') (hI : UnitInv st) : UnitInv st' := by
  obtain ⟨-, -, rfl⟩ := cancelTransferPosition_ok h
  exact unitInv_update s _ _ _ hI (by simp)

lemma deleteSponsorPosition_unitInv {s : Nat} {st st' : LedgerState} {w : Nat}
    (h : deleteSponsorPosition s st = .ok (st', w)) (hI : UnitInv st) : UnitInv st' := by
  obtain ⟨-, hT, -, rfl, -⟩ := deleteSponsorPosition_ok h
  exact unitInv_update s _ _ _ hI (by simp [emptyPosition]; omega)

lemma redeem_unitInv {s n : Nat} {st st' : LedgerState} {w : Nat}
    (h : redeem s n st = .ok (st', w)) (hI : UnitInv st) : UnitInv st' := by
  obtain ⟨-, -, -, -, hbr⟩ := redeem_ok h
  rcases hbr with ⟨-, hdel⟩ | ⟨-, hd, hT, -, -, rfl, -⟩
  · exact deleteSponsorPosition_unitInv hdel hI
  · exact unitInv_update s _ _ _ hI (by simp; omega)


lemma transferPositionPassedRequest_unitInv {s now ns : Nat} {st st' : LedgerState}
    (h : transferPositionPassedRequest s now ns st = .ok st') (hI : UnitInv st) :
    UnitInv st' := by
  obtain ⟨hadj, -, hzero, -, rfl⟩ := transferPositionPassedRequest_ok h
  obtain ⟨hm, h0, hs⟩ := hI
  have hraw0 : (st.positions ns).rawCollateral = 0 := by
    rw [hm, getFeeAdjustedCollateral_scale] at hzero
    exact hzero
  have hne : s ≠ ns := by
    intro hcontra
    rw [hcontra, hraw0, getFeeAdjustedCollateral_zero] at hadj
    exact Nat.lt_irrefl 0 hadj
  refine ⟨hm, ?_, ?_⟩
  · intro a ha
    rw [Finset.mem_insert] at ha
    push_neg at ha
    obtain ⟨has, ha⟩ := ha
    rw [Finset.mem_insert] at ha
    push_neg at ha
    show Function.update (Function.update st.positions ns _) s emptyPosition a
      = emptyPosition
    rw [Function.update_noteq has, Function.update_noteq ha.1]
    exact h0 a ha.2
  · show st.rawTotalPositionCollateral
      = ∑ a ∈ insert s (insert ns st.sponsors),
          (Function.update (Function.update st.positions ns
            { st.positions s with transferPositionRequestPassTimestamp := 0 })
            s emptyPosition a).rawCollateral
    rw [sum_raw_update, Finset.erase_insert_of_ne (Ne.symm hne)]
    rw [sum_raw_update (A := st.sponsors.erase s)]
    have h1 := sum_raw_split st.sponsors st.positions s h0
    have h2 := sum_raw_split_zero (st.sponsors.erase s) st.positions ns hraw0
    have hs' : st.rawTotalPositionCollateral
        = ∑ a ∈ st.sponsors, (st.positions a).rawCollateral := hs
    simp [emptyPosition]
    omega

lemma accrueFees_unitInv {m' : Nat} {st st' : LedgerState}
    (h : accrueFees m' st = .ok st') (hcond : m' = SCALE) (hI : UnitInv st) :
    UnitInv st' := by
  obtain ⟨-, rfl⟩ := accrueFees_ok h
  exact ⟨hcond, hI.2.1, hI.2.2⟩

lemma map_fst_ok {e : Except Err (LedgerState × Nat)} {st' : LedgerState}
    (h : e.map Prod.fst = .ok st') : ∃ w, e = .ok (st', w) := by
  cases e with
  | error a => exact Except.noConfusion h
  | ok p =>
    cases p with
    | mk a b =>
      injection h with h
      exact ⟨b, by rw [← h]⟩

lemma exec_unitInv {op : Op} {st st' : LedgerState}
    (h : exec op st = .ok st') (hcond : keepsUnitMultiplier op) (hI : UnitInv st) :
    UnitInv st' := by
  cases op with
  | create s c n => exact create_unitInv h hI
  | depositTo s c => exact depositTo_unitInv h hI
  | withdraw s c =>
    obtain ⟨w, h⟩ := map_fst_ok h
    exact withdraw_unitInv h hI
  | requestWithdrawal s now c => exact requestWithdrawal_unitInv h hI
  | withdrawPassedRequest s now =>
    obtain ⟨w, h⟩ := map_fst_ok h
    exact withdrawPassedRequest_unitInv h hI
  | cancelWithdrawal s => exact cancelWithdrawal_unitInv h hI
  | redeem s n =>
    obtain ⟨w, h⟩ := map_fst_ok h
    exact redeem_unitInv h hI
  | requestTransferPosition s now => exact requestTransferPosition_unitInv h hI
  | transferPositionPassedRequest s now ns =>
    exact transferPositionPassedRequest_unitInv h hI
  | cancelTransferPosition s => exact cancelTransferPosition_unitInv h hI
  | accrueFees m' => exact accrueFees_unitInv h hcond hI

lemma execTrace_unitInv : ∀ (ops : List Op) (st st' : LedgerState),
    (∀ op ∈ ops, keepsUnitMultiplier op) → execTrace ops st = .ok st' →
    UnitInv st → UnitInv st'
  | [], st, st', _, h, hI => by
    injection h with h
    rw [← h]
    exact hI
  | op :: ops, st, st', hcond, h, hI => by
    simp only [execTrace] at h
    cases heq : exec op st with
    | error e => rw [heq] at h; exact Except.noConfusion h
    | ok mid =>
      rw [heq] at h
      exact execTrace_unitInv ops mid st' (fun o ho => hcond o (List.mem_cons_of_mem _ ho)) h
        (exec_unitInv heq (hcond op (List.mem_cons_self _ _)) hI)

lemma initState_unitInv (minTok live exp : Nat) :
    UnitInv (initState minTok live exp) := by
  refine ⟨rfl, fun a _ => rfl, ?_⟩
  show (0 : Nat) = ∑ a ∈ (∅ : Finset Nat), _
  simp


lemma minTokens_update {st : LedgerState} (s : Nat) (v : PositionData)
    (newT newTok : Nat) (hm : MinTokens st)
    (hv : 0 < v.tokensOutstanding → st.minSponsorTokens ≤ v.tokensOutstanding) :
    MinTokens { st with
      positions := Function.update st.positions s v
      sponsors := insert s st.sponsors
      rawTotalPositionCollateral := newT
      totalTokensOutstanding := newTok } := by
  intro a
  show 0 < (Function.update st.positions s v a).tokensOutstanding →
    st.minSponsorTokens ≤ (Function.update st.positions s v a).tokensOutstanding
  by_cases h : a = s
  · subst h
    rw [Function.update_same]
    exact hv
  · rw [Function.update_noteq h]
    exact hm a

lemma exec_minTokens {op : Op} {st st' : LedgerState}
    (h : exec op st = .ok st') (hm : MinTokens st) : MinTokens st' := by
  cases op with
  | create s c n =>
    obtain ⟨-, -, h3, rfl⟩ := create_ok h
    refine minTokens_update s _ _ _ hm ?_
    intro h0
    show st.minSponsorTokens ≤ (st.positions s).tokensOutstanding + n
    by_cases hz : (st.positions s).tokensOutstanding = 0
    · have : ¬ n < st.minSponsorTokens := fun hcon => h3 ⟨hz, hcon⟩
      omega
    · have := hm s (Nat.pos_of_ne_zero hz)
      omega
  | depositTo s c =>
    obtain ⟨-, -, -, rfl⟩ := depositTo_ok h
    exact minTokens_update s _ _ _ hm fun h0 => hm s h0
  | withdraw s c =>
    obtain ⟨w, h⟩ := map_fst_ok h
    obtain ⟨-, -, -, -, -, -, rfl, -⟩ := withdraw_ok h
    exact minTokens_update s _ _ _ hm fun h0 => hm s h0
  | requestWithdrawal s now c =>
    obtain ⟨-, -, -, rfl⟩ := requestWithdrawal_ok h
    exact minTokens_update s _ _ _ hm fun h0 => hm s h0
  | withdrawPassedRequest s now =>
    obtain ⟨w, h⟩ := map_fst_ok h
    obtain ⟨-, -, -, -, rfl, -⟩ := withdrawPassedRequest_ok h
    exact minTokens_update s _ _ _ hm fun h0 => hm s h0
  | cancelWithdrawal s =>
    obtain ⟨-, -, rfl⟩ := cancelWithdrawal_ok h
    exact minTokens_update s _ _ _ hm fun h0 => hm s h0
  | redeem s n =>
    obtain ⟨w, h⟩ := map_fst_ok h
    obtain ⟨-, -, -, -, hbr⟩ := redeem_ok h
    rcases hbr with ⟨-, hdel⟩ | ⟨-, -, -, hmin, -, rfl, -⟩
    · obtain ⟨-, -, -, rfl, -⟩ := deleteSponsorPosition_ok hdel
      refine minTokens_update s _ _ _ hm ?_
      intro h0
      exact absurd h0 (by simp [emptyPosition])
    · exact minTokens_update s _ _ _ hm fun _ => hmin
  | requestTransferPosition s now =>
    obtain ⟨-, -, -, rfl⟩ := requestTransferPosition_ok h
    exact minTokens_update s _ _ _ hm fun h0 => hm s h0
  | transferPositionPassedRequest s now ns =>
    obtain ⟨-, -, -, -, rfl⟩ := transferPositionPassedRequest_ok h
    intro a
    show 0 < (Function.update (Function.update st.positions ns _) s emptyPosition
        a).tokensOutstanding → _ ≤ (Function.update (Function.update st.positions ns _)
        s emptyPosition a).tokensOutstanding
    by_cases has : a = s
    · subst has
      rw [Function.update_same]
      intro h0
      exact absurd h0 (by simp [emptyPosition])
    · rw [Function.update_noteq has]
      by_cases hans : a = ns
      · subst hans
        rw [Function.update_same]
        exact hm s
      · rw [Function.update_noteq hans]
        exact hm a
  | cancelTransferPosition s =>
    obtain ⟨-, -, rfl⟩ := cancelTransferPosition_ok h
    exact minTokens_update s _ _ _ hm fun h0 => hm s h0
  | accrueFees m' =>
    obtain ⟨-, rfl⟩ := accrueFees_ok h
    exact hm

lemma execTrace_minTokens : ∀ (ops : List Op) (st st' : LedgerState),
    execTrace ops st = .ok st' → MinTokens st → MinTokens st'
  | [], st, st', h, hm => by
    injection h with h
    rw [← h]
    exact hm
  | op :: ops, st, st', h, hm => by
    simp only [execTrace] at h
    cases heq : exec op st with
    | error e => rw [heq] at h; exact Except.noConfusion h
    | ok mid =>
      rw [heq] at h
      exact execTrace_minTokens ops mid st' h (exec_minTokens heq hm)

lemma initState_minTokens (minTok live exp : Nat) :
    MinTokens (initState minTok live exp) := by
  intro a ha
  exact absurd ha (by simp [initState, emptyPosition])



/-- Extracts the state of a successful run (arbitrary default on failure);
used to name concrete states reached by concrete traces. -/
def resultState (e : Except Err LedgerState) : LedgerState :=
  match e with
  | .ok st => st
  | .error _ => initState 0 0 0

/-- C1 (amended): starting from the empty ledger, after every sequence of
successful operations during which the cumulative fee multiplier keeps its
initial value 1.0, the fee-adjusted `rawTotalPositionCollateral` equals the
sum of the fee-adjusted `rawCollateral` of all positions (the raw counters
agree exactly).  Under a decreased multiplier the truncated fee-adjusted
values can differ (see the counterexample), so the quantification over all
reachable multiplier values in the original claim is dropped. -/
theorem C1_solvency_unit_multiplier (minTok live exp : Nat) (ops : List Op)
    (st : LedgerState) (hops : ∀ op ∈ ops, keepsUnitMultiplier op)
    (h : execTrace ops (initState minTok live exp) = .ok st) :
    getFeeAdjustedCollateral st.rawTotalPositionCollateral st.cumulativeFeeMultiplier
      = sumAdjCollateral st := by
  obtain ⟨hm, h0, hs⟩ :=
    execTrace_unitInv ops _ st hops h (initState_unitInv minTok live exp)
  rw [hm, getFeeAdjustedCollateral_scale]
  unfold sumAdjCollateral
  rw [hm]
  calc st.rawTotalPositionCollateral
      = ∑ a ∈ st.sponsors, (st.positions a).rawCollateral := hs
    _ = ∑ a ∈ st.sponsors,
          getFeeAdjustedCollateral (st.positions a).rawCollateral SCALE :=
        Finset.sum_congr rfl fun a _ => (getFeeAdjustedCollateral_scale _).symm

/-- Trace for the C1 witness: the basic-lifecycle scenario prefix of the
spec, a creation followed by a deposit, at multiplier 1.0. -/
def w1Ops : List Op := [.create 0 150 100, .depositTo 0 50]

/-- Final state of the C1 witness trace. -/
def w1State : LedgerState := resultState (execTrace w1Ops (initState 10 1000 1000000000))

/-- Witness for C1: the amended solvency theorem applied to a concrete trace. -/
theorem C1_solvency_witness :
    execTrace w1Ops (initState 10 1000 1000000000) = .ok w1State ∧
    getFeeAdjustedCollateral w1State.rawTotalPositionCollateral
      w1State.cumulativeFeeMultiplier = sumAdjCollateral w1State := by
  refine ⟨rfl, C1_solvency_unit_multiplier 10 1000 1000000000 w1Ops w1State ?_ rfl⟩
  intro op hop
  rcases List.mem_cons.mp hop with rfl | hop
  · trivial
  rcases List.mem_cons.mp hop with rfl | hop
  · trivial
  cases hop

/-- Trace for the C1 counterexample: two one-wei positions, then the fee
multiplier drops to 0.5. -/
def c1Ops : List Op := [.create 0 1 10, .create 1 1 10, .accrueFees (5 * 10 ^ 17)]

/-- Final state of the C1 counterexample trace. -/
def c1State : LedgerState := resultState (execTrace c1Ops (initState 10 0 1000000000))

/-- Counterexample to C1 as stated: after a reachable sequence of successful
operations and a reachable multiplier value (0.5), the truncated fee-adjusted
aggregate is 1 wei while the sum of truncated fee-adjusted position
collateral is 0. -/
theorem C1_solvency_counterexample :
    execTrace c1Ops (initState 10 0 1000000000) = .ok c1State ∧
    getFeeAdjustedCollateral c1State.rawTotalPositionCollateral
      c1State.cumulativeFeeMultiplier = 1 ∧
    sumAdjCollateral c1State = 0 ∧
    getFeeAdjustedCollateral c1State.rawTotalPositionCollateral
      c1State.cumulativeFeeMultiplier ≠ sumAdjCollateral c1State := by
  refine ⟨rfl, by decide, by decide, by decide⟩

/-- C3 (amended): after every reachable sequence of successful operations,
every position with nonzero `tokensOutstanding` holds at least
`minSponsorTokens`; and across any single successful operation, a position's
token count drops from nonzero to zero only by the position becoming absent
(full redemption or transfer away, zeroing its collateral too) or by the
position being overwritten as the recipient of a
`transferPositionPassedRequest` (which installs the transferred record, and
can leave zero tokens with nonzero collateral — see the counterexample). -/
theorem C3_min_size :
    (∀ (minTok live exp : Nat) (ops : List Op) (st : LedgerState),
      execTrace ops (initState minTok live exp) = .ok st →
      ∀ a, 0 < (st.positions a).tokensOutstanding →
        st.minSponsorTokens ≤ (st.positions a).tokensOutstanding) ∧
    (∀ (op : Op) (st st' : LedgerState) (a : Nat),
      exec op st = .ok st' →
      0 < (st.positions a).tokensOutstanding →
      (st'.positions a).tokensOutstanding = 0 →
      st'.positions a = emptyPosition ∨
        ∃ s now, op = .transferPositionPassedRequest s now a) := by
  constructor
  · intro minTok live exp ops st h
    exact execTrace_minTokens ops _ st h (initState_minTokens minTok live exp)
  · intro op st st' a h hpos hzero
    cases op with
    | create s c n =>
      obtain ⟨-, -, -, rfl⟩ := create_ok h
      by_cases has : a = s
      · subst has
        simp only [Function.update_same] at hzero
        omega
      · simp only [Function.update_noteq has] at hzero
        omega
    | depositTo s c =>
      obtain ⟨-, -, -, rfl⟩ := depositTo_ok h
      by_cases has : a = s
      · subst has
        simp only [Function.update_same] at hzero
        omega
      · simp only [Function.update_noteq has] at hzero
        omega
    | withdraw s c =>
      obtain ⟨w, h⟩ := map_fst_ok h
      obtain ⟨-, -, -, -, -, -, rfl, -⟩ := withdraw_ok h
      by_cases has : a = s
      · subst has
        simp only [Function.update_same] at hzero
        omega
      · simp only [Function.update_noteq has] at hzero
        omega
    | requestWithdrawal s now c =>
      obtain ⟨-, -, -, rfl⟩ := requestWithdrawal_ok h
      by_cases has : a = s
      · subst has
        simp only [Function.update_same] at hzero
        omega
      · simp only [Function.update_noteq has] at hzero
        omega
    | withdrawPassedRequest s now =>
      obtain ⟨w, h⟩ := map_fst_ok h
      obtain ⟨-, -, -, -, rfl, -⟩ := withdrawPassedRequest_ok h
      by_cases has : a = s
      · subst has
        simp only [Function.update_same] at hzero
        omega
      · simp only [Function.update_noteq has] at hzero
        omega
    | cancelWithdrawal s =>
      obtain ⟨-, -, rfl⟩ := cancelWithdrawal_ok h
      by_cases has : a = s
      · subst has
        simp only [Function.update_same] at hzero
        omega
      · simp only [Function.update_noteq has] at hzero
        omega
    | redeem s n =>
      obtain ⟨w, h⟩ := map_fst_ok h
      obtain ⟨-, -, hn, -, hbr⟩ := redeem_ok h
      rcases hbr with ⟨heqn, hdel⟩ | ⟨hne, -, -, -, -, rfl, -⟩
      · obtain ⟨-, -, -, rfl, -⟩ := deleteSponsorPosition_ok hdel
        by_cases has : a = s
        · subst has
          left
          exact Function.update_same ..
        · simp only [Function.update_noteq has] at hzero
          omega
      · by_cases has : a = s
        · subst has
          simp only [Function.update_same] at hzero
          omega
        · simp only [Function.update_noteq has] at hzero
          omega
    | requestTransferPosition s now =>
      obtain ⟨-, -, -, rfl⟩ := requestTransferPosition_ok h
      by_cases has : a = s
      · subst has
        simp only [Function.update_same] at hzero
        omega
      · simp only [Function.update_noteq has] at hzero
        omega
    | transferPositionPassedRequest s now ns =>
      obtain ⟨-, -, -, -, rfl⟩ := transferPositionPassedRequest_ok h
      by_cases has : a = s
      · subst has
        left
        exact Function.update_same ..
      · by_cases hans : a = ns
        · subst hans
          right
          exact ⟨s, now, rfl⟩
        · simp only [Function.update_noteq has, Function.update_noteq hans] at hzero
          omega
    | cancelTransferPosition s =>
      obtain ⟨-, -, rfl⟩ := cancelTransferPosition_ok h
      by_cases has : a = s
      · subst has
        simp only [Function.update_same] at hzero
        omega
      · simp only [Function.update_noteq has] at hzero
        omega
    | accrueFees m' =>
      obtain ⟨-, rfl⟩ := accrueFees_ok h
      dsimp only at hzero
      omega


/-- Trace for the C3 witness: a single creation. -/
def w3Ops : List Op := [.create 0 150 100]

/-- State after the C3 witness trace. -/
def w3State : LedgerState := resultState (execTrace w3Ops (initState 10 0 1000000000))

/-- State after fully redeeming the C3 witness position. -/
def w3Post : LedgerState := resultState (exec (.redeem 0 100) w3State)

/-- Witness for C3: both halves of the amended theorem applied concretely —
the created position meets the minimum size, and a full redemption that
zeroes the token count leaves the position absent. -/
theorem C3_min_size_witness :
    execTrace w3Ops (initState 10 0 1000000000) = .ok w3State ∧
    w3State.minSponsorTokens ≤ (w3State.positions 0).tokensOutstanding ∧
    (w3Post.positions 0 = emptyPosition ∨
      ∃ s now, Op.redeem 0 100 = Op.transferPositionPassedRequest s now 0) :=
  ⟨rfl,
   C3_min_size.1 10 0 1000000000 w3Ops w3State rfl 0 (by decide),
   C3_min_size.2 (.redeem 0 100) w3State w3Post 0 rfl (by decide) (by decide)⟩

/-- Reachable preparation for the C3 counterexample: sponsor 0 holds a
zero-token position with collateral (minimum size 0) and a passed transfer
request; sponsor 1 holds 10 tokens whose collateral was fully withdrawn
through the two-phase request path. -/
def c3PreOps : List Op :=
  [.create 0 5 0, .create 1 1 10, .requestWithdrawal 1 5 1,
   .requestTransferPosition 0 5, .withdrawPassedRequest 1 5]

/-- State before the C3 counterexample step. -/
def c3Pre : LedgerState := resultState (execTrace c3PreOps (initState 0 0 1000000000))

/-- State after the C3 counterexample step. -/
def c3Post : LedgerState := resultState (exec (.transferPositionPassedRequest 0 5 1) c3Pre)

/-- Counterexample to C3 as stated: a successful
`transferPositionPassedRequest` overwrites sponsor 1's live 10-token position
with the transferred zero-token record, so its `tokensOutstanding` reaches
exactly zero without full closure and with nonzero collateral remaining. -/
theorem C3_min_size_counterexample :
    execTrace c3PreOps (initState 0 0 1000000000) = .ok c3Pre ∧
    (c3Pre.positions 1).tokensOutstanding = 10 ∧
    exec (.transferPositionPassedRequest 0 5 1) c3Pre = .ok c3Post ∧
    (c3Post.positions 1).tokensOutstanding = 0 ∧
    (c3Post.positions 1).rawCollateral = 5 ∧
    c3Post.positions 1 ≠ emptyPosition :=
  ⟨rfl, by decide, rfl, by decide, by decide, by decide⟩



/-- Extracts the state-amount pair of a successful run (arbitrary default on
failure); used to name concrete outputs of concrete calls. -/
def resultPair (e : Except Err (LedgerState × Nat)) : LedgerState × Nat :=
  match e with
  | .ok p => p
  | .error _ => (initState 0 0 0, 0)

/-- C2 (amended): a successful `withdraw` leaves the caller's position ratio
at or above the *resulting* global ratio (the GCR check runs after the
position decrement but before the aggregate decrement, and the aggregate
ratio only falls further).  A successful `create` guarantees only that the
resulting candidate ratio or the marginal ratio is at or above the
*pre-operation* global ratio; the resulting position can end strictly below
the post-update global ratio (see the counterexample). -/
theorem C2_ratio_checks :
    (∀ (s c : Nat) (st st' : LedgerState) (w : Nat),
      withdraw s c st = .ok (st', w) →
      getCollateralizationRatio
          (getFeeAdjustedCollateral st'.rawTotalPositionCollateral
            st'.cumulativeFeeMultiplier)
          st'.totalTokensOutstanding
        ≤ getCollateralizationRatio
            (getFeeAdjustedCollateral (st'.positions s).rawCollateral
              st'.cumulativeFeeMultiplier)
            (st'.positions s).tokensOutstanding) ∧
    (∀ (s c n : Nat) (st st' : LedgerState),
      create s c n st = .ok st' →
      getCollateralizationRatio
          (getFeeAdjustedCollateral st.rawTotalPositionCollateral
            st.cumulativeFeeMultiplier)
          st.totalTokensOutstanding
        ≤ getCollateralizationRatio
            (getFeeAdjustedCollateral (st.positions s).rawCollateral
              st.cumulativeFeeMultiplier + c)
            ((st.positions s).tokensOutstanding + n) ∨
      getCollateralizationRatio
          (getFeeAdjustedCollateral st.rawTotalPositionCollateral
            st.cumulativeFeeMultiplier)
          st.totalTokensOutstanding
        ≤ getCollateralizationRatio c n) := by
  constructor
  · intro s c st st' w h
    obtain ⟨-, -, -, hd, hgcr, hT, rfl, -⟩ := withdraw_ok h
    have hgcr' := of_decide_eq_true hgcr
    dsimp only
    rw [Function.update_same]
    refine le_trans ?_ hgcr'
    exact getCollateralizationRatio_mono _
      (getFeeAdjustedCollateral_mono _ (Nat.sub_le _ _))
  · intro s c n st st' h
    obtain ⟨hcheck, -, -, -⟩ := create_ok h
    rcases Bool.or_eq_true _ _ |>.mp hcheck with h1 | h2
    · exact Or.inl (of_decide_eq_true h1)
    · exact Or.inr (of_decide_eq_true h2)

/-- Concrete two-sponsor state for the C2 witness. -/
def w2State : LedgerState :=
  { positions := fun a =>
      if a = 0 then ⟨10, 0, 0, 1000, 0⟩
      else if a = 1 then ⟨10, 0, 0, 100, 0⟩
      else emptyPosition
    sponsors := {0, 1}
    totalTokensOutstanding := 20
    rawTotalPositionCollateral := 1100
    cumulativeFeeMultiplier := SCALE
    minSponsorTokens := 10
    withdrawalLiveness := 0
    expirationTimestamp := 1000000000 }

/-- Output of the C2 witness withdrawal. -/
def w2Pair : LedgerState × Nat := resultPair (withdraw 0 100 w2State)

/-- Witness for C2: both halves of the theorem applied to concrete calls. -/
theorem C2_ratio_checks_witness :
    withdraw 0 100 w2State = .ok w2Pair ∧
    getCollateralizationRatio
        (getFeeAdjustedCollateral w2Pair.1.rawTotalPositionCollateral
          w2Pair.1.cumulativeFeeMultiplier)
        w2Pair.1.totalTokensOutstanding
      ≤ getCollateralizationRatio
          (getFeeAdjustedCollateral (w2Pair.1.positions 0).rawCollateral
            w2Pair.1.cumulativeFeeMultiplier)
          (w2Pair.1.positions 0).tokensOutstanding ∧
    (getCollateralizationRatio
        (getFeeAdjustedCollateral w2State.rawTotalPositionCollateral
          w2State.cumulativeFeeMultiplier)
        w2State.totalTokensOutstanding
      ≤ getCollateralizationRatio
          (getFeeAdjustedCollateral (w2State.positions 7).rawCollateral
            w2State.cumulativeFeeMultiplier + 600)
          ((w2State.positions 7).tokensOutstanding + 10) ∨
      getCollateralizationRatio
          (getFeeAdjustedCollateral w2State.rawTotalPositionCollateral
            w2State.cumulativeFeeMultiplier)
          w2State.totalTokensOutstanding
        ≤ getCollateralizationRatio 600 10) :=
  ⟨rfl,
   C2_ratio_checks.1 0 100 w2State w2Pair.1 w2Pair.2 rfl,
   C2_ratio_checks.2 7 600 10 w2State
     (resultState (create 7 600 10 w2State)) rfl⟩

/-- Reachable preparation for the C2 counterexample: sponsor 1 builds a
position and drains most of its collateral through the two-phase withdrawal
path, leaving its ratio far below the global ratio. -/
def c2Ops : List Op :=
  [.create 0 30 10, .create 1 31 10, .requestWithdrawal 1 5 30,
   .withdrawPassedRequest 1 5]

/-- State before the C2 counterexample create. -/
def c2Pre : LedgerState := resultState (execTrace c2Ops (initState 10 0 1000000000))

/-- State after the C2 counterexample create. -/
def c2Post : LedgerState := resultState (create 1 39 10 c2Pre)

/-- Counterexample to C2 as stated: a successful `create` (passing the full
post-state check against the pre-operation global ratio) leaves the caller's
position ratio 2.0 strictly below the resulting global ratio 2.333…. -/
theorem C2_ratio_checks_counterexample :
    execTrace c2Ops (initState 10 0 1000000000) = .ok c2Pre ∧
    create 1 39 10 c2Pre = .ok c2Post ∧
    getCollateralizationRatio
        (getFeeAdjustedCollateral (c2Post.positions 1).rawCollateral
          c2Post.cumulativeFeeMultiplier)
        (c2Post.positions 1).tokensOutstanding = 2000000000000000000 ∧
    getCollateralizationRatio
        (getFeeAdjustedCollateral c2Post.rawTotalPositionCollateral
          c2Post.cumulativeFeeMultiplier)
        c2Post.totalTokensOutstanding = 2333333333333333333 ∧
    getCollateralizationRatio
        (getFeeAdjustedCollateral (c2Post.positions 1).rawCollateral
          c2Post.cumulativeFeeMultiplier)
        (c2Post.positions 1).tokensOutstanding
      < getCollateralizationRatio
          (getFeeAdjustedCollateral c2Post.rawTotalPositionCollateral
            c2Post.cumulativeFeeMultiplier)
          c2Post.totalTokensOutstanding :=
  ⟨rfl, rfl, by decide, by decide, by decide⟩

/-- C4 (confirmed): the ratio helper returns exactly zero on a zero token
count (taking the guarded branch, never dividing), so a zero-token candidate
passes `_checkCollateralization` exactly when the global ratio is itself
zero, independently of the candidate's collateral — in particular the
marginal-only zero-token check of `create` passes in exactly the same
states. -/
theorem C4_zero_token_ratio (st : LedgerState) (c c₂ : Nat) :
    getCollateralizationRatio c 0 = 0 ∧
    (checkCollateralization st c 0 = true ↔
      getCollateralizationRatio
        (getFeeAdjustedCollateral st.rawTotalPositionCollateral
          st.cumulativeFeeMultiplier)
        st.totalTokensOutstanding = 0) ∧
    checkCollateralization st c 0 = checkCollateralization st c₂ 0 := by
  refine ⟨rfl, ?_, ?_⟩
  · unfold checkCollateralization
    rw [decide_eq_true_eq]
    show _ ≤ getCollateralizationRatio c 0 ↔ _
    rw [show getCollateralizationRatio c 0 = 0 from rfl]
    exact Nat.le_zero
  · unfold checkCollateralization
    rw [show getCollateralizationRatio c 0 = 0 from rfl,
      show getCollateralizationRatio c₂ 0 = 0 from rfl]


/-- C5 (amended): for every position with a pending withdrawal request whose
pass timestamp is nonzero and has passed, and whose fee-adjusted collateral
is still positive (otherwise the `_getPositionData` lookup reverts),
`withdrawPassedRequest` succeeds, removes the raw equivalent of
`min(requestAmount, current fee-adjusted collateral)` from both counters,
clears both request fields, and returns the fee-adjusted decrease of the
aggregate counter — which equals the `min` only up to fixed-point
truncation (exactly at multiplier 1.0, and in the spec's 45-versus-50
example; see the counterexample for a reachable strict shortfall). -/
theorem C5_withdraw_passed_request (st : LedgerState) (s now : Nat)
    (hm : 0 < st.cumulativeFeeMultiplier)
    (hcol : 0 < getFeeAdjustedCollateral (st.positions s).rawCollateral
      st.cumulativeFeeMultiplier)
    (hts : (st.positions s).withdrawalRequestPassTimestamp ≠ 0)
    (hpass : (st.positions s).withdrawalRequestPassTimestamp ≤ now)
    (hle : (st.positions s).rawCollateral ≤ st.rawTotalPositionCollateral) :
    withdrawPassedRequest s now st = .ok
      ({ st with
        positions := Function.update st.positions s
          { st.positions s with
            rawCollateral := (st.positions s).rawCollateral -
              convertToRawCollateral
                (min (st.positions s).withdrawalRequestAmount
                  (getFeeAdjustedCollateral (st.positions s).rawCollateral
                    st.cumulativeFeeMultiplier))
                st.cumulativeFeeMultiplier
            withdrawalRequestAmount := 0
            withdrawalRequestPassTimestamp := 0 }
        sponsors := insert s st.sponsors
        rawTotalPositionCollateral := st.rawTotalPositionCollateral -
          convertToRawCollateral
            (min (st.positions s).withdrawalRequestAmount
              (getFeeAdjustedCollateral (st.positions s).rawCollateral
                st.cumulativeFeeMultiplier))
            st.cumulativeFeeMultiplier },
      getFeeAdjustedCollateral st.rawTotalPositionCollateral
        st.cumulativeFeeMultiplier -
        getFeeAdjustedCollateral
          (st.rawTotalPositionCollateral -
            convertToRawCollateral
              (min (st.positions s).withdrawalRequestAmount
                (getFeeAdjustedCollateral (st.positions s).rawCollateral
                  st.cumulativeFeeMultiplier))
              st.cumulativeFeeMultiplier)
          st.cumulativeFeeMultiplier) := by
  have hd : convertToRawCollateral
      (min (st.positions s).withdrawalRequestAmount
        (getFeeAdjustedCollateral (st.positions s).rawCollateral
          st.cumulativeFeeMultiplier))
      st.cumulativeFeeMultiplier ≤ (st.positions s).rawCollateral :=
    convertToRawCollateral_le hm (Nat.min_le_right _ _)
  simp only [withdrawPassedRequest]
  rw [ite_lt_min]
  rw [if_neg (not_not_intro hcol), if_neg (not_not_intro ⟨hts, hpass⟩),
    if_neg (Nat.not_lt.mpr hd), if_neg (Nat.not_lt.mpr (le_trans hd hle))]

/-- The spec's fee-accrual scenario state: raw collateral 50, multiplier 0.9
(fee-adjusted balance 45), pending passed request for 50. -/
def w5State : LedgerState :=
  { positions := fun a =>
      if a = 1 then ⟨10, 4, 50, 50, 0⟩ else emptyPosition
    sponsors := {1}
    totalTokensOutstanding := 10
    rawTotalPositionCollateral := 50
    cumulativeFeeMultiplier := 9 * 10 ^ 17
    minSponsorTokens := 10
    withdrawalLiveness := 0
    expirationTimestamp := 1000000000 }

/-- Witness for C5, at the spec's own example: requested 50 against a
fee-adjusted balance of 45 withdraws exactly 45. -/
theorem C5_withdraw_passed_request_witness :
    (0 < w5State.cumulativeFeeMultiplier ∧
      0 < getFeeAdjustedCollateral (w5State.positions 1).rawCollateral
        w5State.cumulativeFeeMultiplier ∧
      (w5State.positions 1).withdrawalRequestPassTimestamp ≠ 0 ∧
      (w5State.positions 1).withdrawalRequestPassTimestamp ≤ 9 ∧
      (w5State.positions 1).rawCollateral ≤ w5State.rawTotalPositionCollateral) ∧
    min (w5State.positions 1).withdrawalRequestAmount
      (getFeeAdjustedCollateral (w5State.positions 1).rawCollateral
        w5State.cumulativeFeeMultiplier) = 45 ∧
    getFeeAdjustedCollateral w5State.rawTotalPositionCollateral
        w5State.cumulativeFeeMultiplier -
      getFeeAdjustedCollateral
        (w5State.rawTotalPositionCollateral -
          convertToRawCollateral
            (min (w5State.positions 1).withdrawalRequestAmount
              (getFeeAdjustedCollateral (w5State.positions 1).rawCollateral
                w5State.cumulativeFeeMultiplier))
            w5State.cumulativeFeeMultiplier)
        w5State.cumulativeFeeMultiplier = 45 ∧
    withdrawPassedRequest 1 9 w5State = .ok
      ({ w5State with
        positions := Function.update w5State.positions 1
          { w5State.positions 1 with
            rawCollateral := (w5State.positions 1).rawCollateral -
              convertToRawCollateral
                (min (w5State.positions 1).withdrawalRequestAmount
                  (getFeeAdjustedCollateral (w5State.positions 1).rawCollateral
                    w5State.cumulativeFeeMultiplier))
                w5State.cumulativeFeeMultiplier
            withdrawalRequestAmount := 0
            withdrawalRequestPassTimestamp := 0 }
        sponsors := insert 1 w5State.sponsors
        rawTotalPositionCollateral := w5State.rawTotalPositionCollateral -
          convertToRawCollateral
            (min (w5State.positions 1).withdrawalRequestAmount
              (getFeeAdjustedCollateral (w5State.positions 1).rawCollateral
                w5State.cumulativeFeeMultiplier))
            w5State.cumulativeFeeMultiplier },
      getFeeAdjustedCollateral w5State.rawTotalPositionCollateral
        w5State.cumulativeFeeMultiplier -
        getFeeAdjustedCollateral
          (w5State.rawTotalPositionCollateral -
            convertToRawCollateral
              (min (w5State.positions 1).withdrawalRequestAmount
                (getFeeAdjustedCollateral (w5State.positions 1).rawCollateral
                  w5State.cumulativeFeeMultiplier))
              w5State.cumulativeFeeMultiplier)
          w5State.cumulativeFeeMultiplier) :=
  ⟨⟨by decide, by decide, by decide, by decide, by decide⟩, by decide, by decide,
   C5_withdraw_passed_request w5State 1 9 (by decide) (by decide) (by decide)
     (by decide) (by decide)⟩

/-- Reachable preparation for the C5 counterexample: a 4-wei position with
10 tokens, a pending request for 2 wei, then the multiplier drops to 0.7. -/
def c5Ops : List Op :=
  [.create 1 4 10, .requestWithdrawal 1 7 2, .accrueFees (7 * 10 ^ 17)]

/-- State before the C5 counterexample call. -/
def c5Pre : LedgerState := resultState (execTrace c5Ops (initState 10 0 1000000000))

/-- Output of the C5 counterexample call. -/
def c5Pair : LedgerState × Nat := resultPair (withdrawPassedRequest 1 7 c5Pre)

/-- Counterexample to C5 as stated: with multiplier 0.7 the capped amount is
`min(2, 2) = 2` wei, but the call succeeds returning only 1 wei — fixed-point
truncation makes the withdrawn amount fall short of the stated
`min(requestAmount, current fee-adjusted collateral)`. -/
theorem C5_withdraw_passed_request_counterexample :
    execTrace c5Ops (initState 10 0 1000000000) = .ok c5Pre ∧
    withdrawPassedRequest 1 7 c5Pre = .ok c5Pair ∧
    min (c5Pre.positions 1).withdrawalRequestAmount
      (getFeeAdjustedCollateral (c5Pre.positions 1).rawCollateral
        c5Pre.cumulativeFeeMultiplier) = 2 ∧
    c5Pair.2 = 1 ∧
    c5Pair.2 ≠ min (c5Pre.positions 1).withdrawalRequestAmount
      (getFeeAdjustedCollateral (c5Pre.positions 1).rawCollateral
        c5Pre.cumulativeFeeMultiplier) :=
  ⟨rfl, rfl, by decide, by decide, by decide⟩



lemma depositTo_noCollateral {st : LedgerState} {s c : Nat}
    (h : getFeeAdjustedCollateral (st.positions s).rawCollateral
      st.cumulativeFeeMultiplier = 0) :
    depositTo s c st = .error .noCollateral := by
  simp only [depositTo]
  rw [if_pos (by simp [h])]

lemma withdraw_noCollateral {st : LedgerState} {s c : Nat}
    (h : getFeeAdjustedCollateral (st.positions s).rawCollateral
      st.cumulativeFeeMultiplier = 0) :
    withdraw s c st = .error .noCollateral := by
  simp only [withdraw]
  rw [if_pos (by simp [h])]

lemma requestWithdrawal_noCollateral {st : LedgerState} {s now c : Nat}
    (h : getFeeAdjustedCollateral (st.positions s).rawCollateral
      st.cumulativeFeeMultiplier = 0) :
    requestWithdrawal s now c st = .error .noCollateral := by
  simp only [requestWithdrawal]
  rw [if_pos (by simp [h])]

lemma withdrawPassedRequest_noCollateral {st : LedgerState} {s now : Nat}
    (h : getFeeAdjustedCollateral (st.positions s).rawCollateral
      st.cumulativeFeeMultiplier = 0) :
    withdrawPassedRequest s now st = .error .noCollateral := by
  simp only [withdrawPassedRequest]
  rw [if_pos (by simp [h])]

lemma cancelWithdrawal_noCollateral {st : LedgerState} {s : Nat}
    (h : getFeeAdjustedCollateral (st.positions s).rawCollateral
      st.cumulativeFeeMultiplier = 0) :
    cancelWithdrawal s st = .error .noCollateral := by
  simp only [cancelWithdrawal]
  rw [if_pos (by simp [h])]

lemma redeem_noCollateral {st : LedgerState} {s n : Nat}
    (h : getFeeAdjustedCollateral (st.positions s).rawCollateral
      st.cumulativeFeeMultiplier = 0) :
    redeem s n st = .error .noCollateral := by
  simp only [redeem]
  rw [if_pos (by simp [h])]

lemma requestTransferPosition_noCollateral {st : LedgerState} {s now : Nat}
    (h : getFeeAdjustedCollateral (st.positions s).rawCollateral
      st.cumulativeFeeMultiplier = 0) :
    requestTransferPosition s now st = .error .noCollateral := by
  simp only [requestTransferPosition]
  rw [if_pos (by simp [h])]

lemma cancelTransferPosition_noCollateral {st : LedgerState} {s : Nat}
    (h : getFeeAdjustedCollateral (st.positions s).rawCollateral
      st.cumulativeFeeMultiplier = 0) :
    cancelTransferPosition s st = .error .noCollateral := by
  simp only [cancelTransferPosition]
  rw [if_pos (by simp [h])]

lemma transferPositionPassedRequest_noCollateral {st : LedgerState} {s now ns : Nat}
    (h : getFeeAdjustedCollateral (st.positions s).rawCollateral
      st.cumulativeFeeMultiplier = 0) :
    transferPositionPassedRequest s now ns st = .error .noCollateral := by
  simp only [transferPositionPassedRequest]
  rw [if_pos (by simp [h])]

lemma depositTo_no_pending_error {st : LedgerState} {s c : Nat}
    (h0 : (st.positions s).withdrawalRequestPassTimestamp = 0) :
    depositTo s c st ≠ .error .pendingWithdrawal := by
  intro heq
  simp only [depositTo] at heq
  split at heq
  · injection heq with heq
    exact Err.noConfusion heq
  split at heq
  · rename_i hts
    exact hts h0
  split at heq
  · injection heq with heq
    exact Err.noConfusion heq
  · exact Except.noConfusion heq

lemma withdraw_no_pending_error {st : LedgerState} {s c : Nat}
    (h0 : (st.positions s).withdrawalRequestPassTimestamp = 0) :
    withdraw s c st ≠ .error .pendingWithdrawal := by
  intro heq
  simp only [withdraw] at heq
  split at heq
  · injection heq with heq
    exact Err.noConfusion heq
  split at heq
  · rename_i hts
    exact hts h0
  split at heq
  · injection heq with heq
    exact Err.noConfusion heq
  split at heq
  · injection heq with heq
    exact Err.noConfusion heq
  split at heq
  · injection heq with heq
    exact Err.noConfusion heq
  split at heq
  · injection heq with heq
    exact Err.noConfusion heq
  · exact Except.noConfusion heq

lemma create_no_pending_error {st : LedgerState} {s c n : Nat}
    (h0 : (st.positions s).withdrawalRequestPassTimestamp = 0) :
    create s c n st ≠ .error .pendingWithdrawal := by
  intro heq
  simp only [create] at heq
  split at heq
  · injection heq with heq
    exact Err.noConfusion heq
  split at heq
  · rename_i hts
    exact hts h0
  split at heq
  · injection heq with heq
    exact Err.noConfusion heq
  · exact Except.noConfusion heq

lemma deleteSponsorPosition_no_pending_error {st : LedgerState} {s : Nat} :
    deleteSponsorPosition s st ≠ .error .pendingWithdrawal := by
  intro heq
  simp only [deleteSponsorPosition] at heq
  split at heq
  · injection heq with heq
    exact Err.noConfusion heq
  split at heq
  · injection heq with heq
    exact Err.noConfusion heq
  split at heq
  · injection heq with heq
    exact Err.noConfusion heq
  · exact Except.noConfusion heq

lemma redeem_no_pending_error {st : LedgerState} {s n : Nat}
    (h0 : (st.positions s).withdrawalRequestPassTimestamp = 0) :
    redeem s n st ≠ .error .pendingWithdrawal := by
  intro heq
  simp only [redeem] at heq
  split at heq
  · injection heq with heq
    exact Err.noConfusion heq
  split at heq
  · rename_i hts
    exact hts h0
  split at heq
  · injection heq with heq
    exact Err.noConfusion heq
  split at heq
  · injection heq with heq
    exact Err.noConfusion heq
  split at heq
  · exact deleteSponsorPosition_no_pending_error heq
  split at heq
  · injection heq with heq
    exact Err.noConfusion heq
  split at heq
  · injection heq with heq
    exact Err.noConfusion heq
  split at heq
  · injection heq with heq
    exact Err.noConfusion heq
  split at heq
  · injection heq with heq
    exact Err.noConfusion heq
  · exact Except.noConfusion heq


/-- C6 (amended): while a sponsor's position has positive fee-adjusted
collateral and a pending withdrawal request, `depositTo`, `withdraw` and
`redeem` on that sponsor fail with the pending-withdrawal error (leaving the
state unchanged, since failures return no state); `create` also always
fails, but reports `insufficientCollateral` instead whenever its
collateralization check — which the source runs *before* the pending check —
fails (see the counterexample).  After `cancelWithdrawal` or
`withdrawPassedRequest` clears the request, none of the four operations can
report the pending-withdrawal error any more. -/
theorem C6_pending_withdrawal_exclusion :
    (∀ (st : LedgerState) (s c : Nat),
      0 < getFeeAdjustedCollateral (st.positions s).rawCollateral
        st.cumulativeFeeMultiplier →
      (st.positions s).withdrawalRequestPassTimestamp ≠ 0 →
      depositTo s c st = .error .pendingWithdrawal) ∧
    (∀ (st : LedgerState) (s c : Nat),
      0 < getFeeAdjustedCollateral (st.positions s).rawCollateral
        st.cumulativeFeeMultiplier →
      (st.positions s).withdrawalRequestPassTimestamp ≠ 0 →
      withdraw s c st = .error .pendingWithdrawal) ∧
    (∀ (st : LedgerState) (s n : Nat),
      0 < getFeeAdjustedCollateral (st.positions s).rawCollateral
        st.cumulativeFeeMultiplier →
      (st.positions s).withdrawalRequestPassTimestamp ≠ 0 →
      redeem s n st = .error .pendingWithdrawal) ∧
    (∀ (st : LedgerState) (s c n : Nat),
      (st.positions s).withdrawalRequestPassTimestamp ≠ 0 →
      create s c n st = .error .pendingWithdrawal ∨
        create s c n st = .error .insufficientCollateral) ∧
    (∀ (st st₀ : LedgerState) (s : Nat),
      cancelWithdrawal s st = .ok st₀ →
      (∀ c, depositTo s c st₀ ≠ .error .pendingWithdrawal) ∧
      (∀ c, withdraw s c st₀ ≠ .error .pendingWithdrawal) ∧
      (∀ n, redeem s n st₀ ≠ .error .pendingWithdrawal) ∧
      (∀ c n, create s c n st₀ ≠ .error .pendingWithdrawal)) ∧
    (∀ (st st₀ : LedgerState) (s now wAmt : Nat),
      withdrawPassedRequest s now st = .ok (st₀, wAmt) →
      (∀ c, depositTo s c st₀ ≠ .error .pendingWithdrawal) ∧
      (∀ c, withdraw s c st₀ ≠ .error .pendingWithdrawal) ∧
      (∀ n, redeem s n st₀ ≠ .error .pendingWithdrawal) ∧
      (∀ c n, create s c n st₀ ≠ .error .pendingWithdrawal)) := by
  refine ⟨?_, ?_, ?_, ?_, ?_, ?_⟩
  · intro st s c hcol hts
    simp only [depositTo]
    rw [if_neg (not_not_intro hcol), if_pos hts]
  · intro st s c hcol hts
    simp only [withdraw]
    rw [if_neg (not_not_intro hcol), if_pos hts]
  · intro st s n hcol hts
    simp only [redeem]
    rw [if_neg (not_not_intro hcol), if_pos hts]
  · intro st s c n hts
    simp only [create]
    split
    · right
      rfl
    · left
      rfl
  · intro st st₀ s h
    obtain ⟨-, -, rfl⟩ := cancelWithdrawal_ok h
    have h0 : (Function.update st.positions s
        { st.positions s with
          withdrawalRequestAmount := 0
          withdrawalRequestPassTimestamp := 0 }
        s).withdrawalRequestPassTimestamp = 0 := by
      rw [Function.update_same]
    exact ⟨fun c => depositTo_no_pending_error h0,
      fun c => withdraw_no_pending_error h0,
      fun n => redeem_no_pending_error h0,
      fun c n => create_no_pending_error h0⟩
  · intro st st₀ s now wAmt h
    obtain ⟨-, -, -, -, rfl, -⟩ := withdrawPassedRequest_ok h
    have h0 : (Function.update st.positions s
        { st.positions s with
          rawCollateral := (st.positions s).rawCollateral -
            convertToRawCollateral
              (min (st.positions s).withdrawalRequestAmount
                (getFeeAdjustedCollateral (st.positions s).rawCollateral
                  st.cumulativeFeeMultiplier))
              st.cumulativeFeeMultiplier
          withdrawalRequestAmount := 0
          withdrawalRequestPassTimestamp := 0 }
        s).withdrawalRequestPassTimestamp = 0 := by
      rw [Function.update_same]
    exact ⟨fun c => depositTo_no_pending_error h0,
      fun c => withdraw_no_pending_error h0,
      fun n => redeem_no_pending_error h0,
      fun c n => create_no_pending_error h0⟩

/-- Concrete state for the C6 witness: sponsor 1 has collateral and a
pending withdrawal request. -/
def w6State : LedgerState :=
  { positions := fun a =>
      if a = 1 then ⟨10, 4, 20, 100, 0⟩ else emptyPosition
    sponsors := {1}
    totalTokensOutstanding := 10
    rawTotalPositionCollateral := 100
    cumulativeFeeMultiplier := SCALE
    minSponsorTokens := 10
    withdrawalLiveness := 0
    expirationTimestamp := 1000000000 }

/-- State after cancelling the C6 witness request. -/
def w6Cancelled : LedgerState := resultState (cancelWithdrawal 1 w6State)

/-- Witness for C6: on the concrete pending state, `depositTo`, `withdraw`
and `redeem` report the pending-withdrawal error, `create` fails, and after
cancelling the request a deposit no longer reports that error. -/
theorem C6_pending_withdrawal_exclusion_witness :
    depositTo 1 5 w6State = .error .pendingWithdrawal ∧
    withdraw 1 5 w6State = .error .pendingWithdrawal ∧
    redeem 1 5 w6State = .error .pendingWithdrawal ∧
    (create 1 5 5 w6State = .error .pendingWithdrawal ∨
      create 1 5 5 w6State = .error .insufficientCollateral) ∧
    cancelWithdrawal 1 w6State = .ok w6Cancelled ∧
    depositTo 1 5 w6Cancelled ≠ .error .pendingWithdrawal :=
  ⟨C6_pending_withdrawal_exclusion.1 w6State 1 5 (by decide) (by decide),
   C6_pending_withdrawal_exclusion.2.1 w6State 1 5 (by decide) (by decide),
   C6_pending_withdrawal_exclusion.2.2.1 w6State 1 5 (by decide) (by decide),
   C6_pending_withdrawal_exclusion.2.2.2.1 w6State 1 5 5 (by decide),
   rfl,
   (C6_pending_withdrawal_exclusion.2.2.2.2.1 w6State w6Cancelled 1 rfl).1 5⟩

/-- Reachable preparation for the C6 counterexample: sponsor 1 creates while
the ledger is empty, sponsor 0 then raises the global ratio, and sponsor 1
opens a withdrawal request. -/
def c6Ops : List Op :=
  [.create 1 30 10, .create 0 100 10, .requestWithdrawal 1 3 1]

/-- State before the C6 counterexample create. -/
def c6Pre : LedgerState := resultState (execTrace c6Ops (initState 10 0 1000000000))

/-- Counterexample to C6 as stated: sponsor 1 has a pending withdrawal
request, yet `create` fails with `insufficientCollateral`, not
`pendingWithdrawal` — the source checks collateralization first. -/
theorem C6_pending_withdrawal_exclusion_counterexample :
    execTrace c6Ops (initState 10 0 1000000000) = .ok c6Pre ∧
    (c6Pre.positions 1).withdrawalRequestPassTimestamp ≠ 0 ∧
    0 < getFeeAdjustedCollateral (c6Pre.positions 1).rawCollateral
      c6Pre.cumulativeFeeMultiplier ∧
    create 1 1 10 c6Pre = .error .insufficientCollateral ∧
    create 1 1 10 c6Pre ≠ .error .pendingWithdrawal :=
  ⟨rfl, by decide, by decide, rfl, by
    intro hcontra
    injection hcontra with hcontra
    exact Err.noConfusion hcontra⟩

/-- C7 (confirmed): a successful redemption of exactly all outstanding
tokens deletes the position — the sponsor's record reads back as the absent
state — and any further `redeem` by that sponsor fails with the
no-collateralized-position error. -/
theorem C7_full_redeem_deletes (st st' : LedgerState) (s w : Nat)
    (h : redeem s (st.positions s).tokensOutstanding st = .ok (st', w)) :
    st'.positions s = emptyPosition ∧
    ∀ n2, redeem s n2 st' = .error .noCollateral := by
  obtain ⟨-, -, -, -, hbr⟩ := redeem_ok h
  rcases hbr with ⟨-, hdel⟩ | ⟨hne, -⟩
  · obtain ⟨-, -, -, rfl, -⟩ := deleteSponsorPosition_ok hdel
    have hempty : Function.update st.positions s emptyPosition s = emptyPosition :=
      Function.update_same ..
    refine ⟨hempty, ?_⟩
    intro n2
    refine redeem_noCollateral ?_
    show getFeeAdjustedCollateral
      ((Function.update st.positions s emptyPosition) s).rawCollateral _ = 0
    rw [hempty]
    exact getFeeAdjustedCollateral_zero _
  · exact absurd rfl hne

/-- Concrete state for the C7 witness. -/
def w7State : LedgerState :=
  { positions := fun a =>
      if a = 0 then ⟨100, 0, 0, 150, 0⟩ else emptyPosition
    sponsors := {0}
    totalTokensOutstanding := 100
    rawTotalPositionCollateral := 150
    cumulativeFeeMultiplier := SCALE
    minSponsorTokens := 10
    withdrawalLiveness := 0
    expirationTimestamp := 1000000000 }

/-- Output of fully redeeming the C7 witness position. -/
def w7Pair : LedgerState × Nat :=
  resultPair (redeem 0 (w7State.positions 0).tokensOutstanding w7State)

/-- Witness for C7: fully redeeming the concrete 100-token position deletes
it and a second redemption fails with the no-collateral error. -/
theorem C7_full_redeem_deletes_witness :
    redeem 0 (w7State.positions 0).tokensOutstanding w7State = .ok w7Pair ∧
    w7Pair.1.positions 0 = emptyPosition ∧
    redeem 0 5 w7Pair.1 = .error .noCollateral :=
  ⟨rfl,
   (C7_full_redeem_deletes w7State w7Pair.1 0 w7Pair.2 rfl).1,
   (C7_full_redeem_deletes w7State w7Pair.1 0 w7Pair.2 rfl).2 5⟩



/-- C8 (amended): `transferPositionPassedRequest(newSponsor)` succeeds
exactly when the caller's fee-adjusted collateral is positive (the
`_getPositionData` lookup in the `noPendingWithdrawal` modifier — a
condition the original claim omits), the caller has no pending withdrawal,
the recipient's fee-adjusted collateral is zero, and the caller's transfer
request exists and has passed; on success the whole record moves to the new
key with the transfer request cleared, the caller's position becomes absent,
other positions and the aggregate counters are unchanged. -/
theorem C8_transfer_passed_request (st : LedgerState) (s now ns : Nat) :
    ((∃ st', transferPositionPassedRequest s now ns st = .ok st') ↔
      (0 < getFeeAdjustedCollateral (st.positions s).rawCollateral
        st.cumulativeFeeMultiplier ∧
       (st.positions s).withdrawalRequestPassTimestamp = 0 ∧
       getFeeAdjustedCollateral (st.positions ns).rawCollateral
         st.cumulativeFeeMultiplier = 0 ∧
       (st.positions s).transferPositionRequestPassTimestamp ≠ 0 ∧
       (st.positions s).transferPositionRequestPassTimestamp ≤ now)) ∧
    (∀ st', transferPositionPassedRequest s now ns st = .ok st' →
      st'.positions ns =
        { st.positions s with transferPositionRequestPassTimestamp := 0 } ∧
      st'.positions s = emptyPosition ∧
      (∀ a, a ≠ s → a ≠ ns → st'.positions a = st.positions a) ∧
      st'.rawTotalPositionCollateral = st.rawTotalPositionCollateral ∧
      st'.totalTokensOutstanding = st.totalTokensOutstanding ∧
      st'.cumulativeFeeMultiplier = st.cumulativeFeeMultiplier) := by
  constructor
  · constructor
    · intro ⟨st', h⟩
      obtain ⟨h1, h2, h3, ⟨h4, h5⟩, -⟩ := transferPositionPassedRequest_ok h
      exact ⟨h1, h2, h3, h4, h5⟩
    · intro ⟨h1, h2, h3, h4, h5⟩
      refine ⟨{ st with
          positions := Function.update
            (Function.update st.positions ns
              { st.positions s with transferPositionRequestPassTimestamp := 0 })
            s emptyPosition
          sponsors := insert s (insert ns st.sponsors) }, ?_⟩
      simp only [transferPositionPassedRequest]
      rw [if_neg (not_not_intro h1), if_neg (not_not_intro h2),
        if_neg (not_not_intro h3), if_neg (not_not_intro ⟨h4, h5⟩)]
  · intro st' h
    obtain ⟨h1, -, h3, -, rfl⟩ := transferPositionPassedRequest_ok h
    have hne : s ≠ ns := by
      intro hcontra
      rw [hcontra, h3] at h1
      exact Nat.lt_irrefl 0 h1
    refine ⟨?_, ?_, ?_, rfl, rfl, rfl⟩
    · show Function.update (Function.update st.positions ns _) s emptyPosition ns = _
      rw [Function.update_noteq (Ne.symm hne), Function.update_same]
    · exact Function.update_same ..
    · intro a has hans
      show Function.update (Function.update st.positions ns _) s emptyPosition a = _
      rw [Function.update_noteq has, Function.update_noteq hans]

/-- Concrete state for the C8 witness: sponsor 0 holds a position with a
passed transfer request; sponsor 3 is empty. -/
def w8State : LedgerState :=
  { positions := fun a =>
      if a = 0 then ⟨10, 0, 0, 150, 5⟩ else emptyPosition
    sponsors := {0}
    totalTokensOutstanding := 10
    rawTotalPositionCollateral := 150
    cumulativeFeeMultiplier := SCALE
    minSponsorTokens := 10
    withdrawalLiveness := 0
    expirationTimestamp := 1000000000 }

/-- State after the C8 witness transfer. -/
def w8Post : LedgerState :=
  resultState (transferPositionPassedRequest 0 9 3 w8State)

/-- Witness for C8: the concrete transfer succeeds, the success conditions
hold, and the record moves to sponsor 3 with the request cleared while the
aggregates are unchanged. -/
theorem C8_transfer_passed_request_witness :
    transferPositionPassedRequest 0 9 3 w8State = .ok w8Post ∧
    (0 < getFeeAdjustedCollateral (w8State.positions 0).rawCollateral
      w8State.cumulativeFeeMultiplier ∧
     (w8State.positions 0).withdrawalRequestPassTimestamp = 0 ∧
     getFeeAdjustedCollateral (w8State.positions 3).rawCollateral
       w8State.cumulativeFeeMultiplier = 0 ∧
     (w8State.positions 0).transferPositionRequestPassTimestamp ≠ 0 ∧
     (w8State.positions 0).transferPositionRequestPassTimestamp ≤ 9) ∧
    w8Post.positions 3 =
      { w8State.positions 0 with transferPositionRequestPassTimestamp := 0 } ∧
    w8Post.positions 0 = emptyPosition ∧
    w8Post.rawTotalPositionCollateral = w8State.rawTotalPositionCollateral ∧
    w8Post.totalTokensOutstanding = w8State.totalTokensOutstanding :=
  ⟨rfl,
   (C8_transfer_passed_request w8State 0 9 3).1.mp ⟨w8Post, rfl⟩,
   ((C8_transfer_passed_request w8State 0 9 3).2 w8Post rfl).1,
   ((C8_transfer_passed_request w8State 0 9 3).2 w8Post rfl).2.1,
   ((C8_transfer_passed_request w8State 0 9 3).2 w8Post rfl).2.2.2.1,
   ((C8_transfer_passed_request w8State 0 9 3).2 w8Post rfl).2.2.2.2.1⟩

/-- Reachable preparation for the C8 counterexample: a 4-wei position with a
passed transfer request, then the multiplier drops to 0.2 so the caller's
fee-adjusted collateral truncates to zero. -/
def c8Ops : List Op :=
  [.create 0 4 0, .requestTransferPosition 0 5, .accrueFees (2 * 10 ^ 17)]

/-- State before the C8 counterexample call. -/
def c8Pre : LedgerState := resultState (execTrace c8Ops (initState 0 0 1000000000))

/-- Counterexample to C8 as stated: every condition the claim lists holds —
passed nonzero transfer request, no pending withdrawal, recipient with zero
fee-adjusted collateral — yet the call fails, because the caller's own
fee-adjusted collateral is zero and the `_getPositionData` lookup reverts. -/
theorem C8_transfer_passed_request_counterexample :
    execTrace c8Ops (initState 0 0 1000000000) = .ok c8Pre ∧
    (c8Pre.positions 0).transferPositionRequestPassTimestamp ≠ 0 ∧
    (c8Pre.positions 0).transferPositionRequestPassTimestamp ≤ 9 ∧
    (c8Pre.positions 0).withdrawalRequestPassTimestamp = 0 ∧
    getFeeAdjustedCollateral (c8Pre.positions 7).rawCollateral
      c8Pre.cumulativeFeeMultiplier = 0 ∧
    transferPositionPassedRequest 0 9 7 c8Pre = .error .noCollateral :=
  ⟨rfl, by decide, by decide, by decide, by decide, rfl⟩


/-- C9 (amended): every operation that looks a position up through
`_getPositionData` — `depositTo`, `withdraw`, `requestWithdrawal`,
`withdrawPassedRequest`, `cancelWithdrawal`, `redeem`,
`requestTransferPosition`, `cancelTransferPosition` — fails with the
position-has-no-collateral error on a sponsor whose fee-adjusted
`rawCollateral` is zero; and such a sponsor's fee-adjusted collateral can
become nonzero only through its own `create` or by receiving another
sponsor's position via `transferPositionPassedRequest` (the latter entry
path is missing from the original claim — see the counterexample). -/
theorem C9_no_collateral_lookup :
    (∀ (st : LedgerState) (s c now n : Nat),
      getFeeAdjustedCollateral (st.positions s).rawCollateral
        st.cumulativeFeeMultiplier = 0 →
      depositTo s c st = .error .noCollateral ∧
      withdraw s c st = .error .noCollateral ∧
      requestWithdrawal s now c st = .error .noCollateral ∧
      withdrawPassedRequest s now st = .error .noCollateral ∧
      cancelWithdrawal s st = .error .noCollateral ∧
      redeem s n st = .error .noCollateral ∧
      requestTransferPosition s now st = .error .noCollateral ∧
      cancelTransferPosition s st = .error .noCollateral) ∧
    (∀ (op : Op) (st st' : LedgerState) (b : Nat),
      getFeeAdjustedCollateral (st.positions b).rawCollateral
        st.cumulativeFeeMultiplier = 0 →
      exec op st = .ok st' →
      getFeeAdjustedCollateral (st'.positions b).rawCollateral
        st'.cumulativeFeeMultiplier ≠ 0 →
      (∃ c n, op = .create b c n) ∨
        (∃ s now, op = .transferPositionPassedRequest s now b)) := by
  constructor
  · intro st s c now n h0
    exact ⟨depositTo_noCollateral h0, withdraw_noCollateral h0,
      requestWithdrawal_noCollateral h0, withdrawPassedRequest_noCollateral h0,
      cancelWithdrawal_noCollateral h0, redeem_noCollateral h0,
      requestTransferPosition_noCollateral h0, cancelTransferPosition_noCollateral h0⟩
  · intro op st st' b h0 h hne
    cases op with
    | create s c n =>
      by_cases hb : s = b
      · subst hb
        exact Or.inl ⟨c, n, rfl⟩
      · obtain ⟨-, -, -, rfl⟩ := create_ok h
        refine absurd ?_ hne
        show getFeeAdjustedCollateral
          ((Function.update st.positions s _) b).rawCollateral
          st.cumulativeFeeMultiplier = 0
        rw [Function.update_noteq fun hh => hb hh.symm]
        exact h0
    | depositTo s c =>
      by_cases hb : s = b
      · subst hb
        exact Except.noConfusion ((depositTo_noCollateral h0).symm.trans h)
      · obtain ⟨-, -, -, rfl⟩ := depositTo_ok h
        refine absurd ?_ hne
        show getFeeAdjustedCollateral
          ((Function.update st.positions s _) b).rawCollateral
          st.cumulativeFeeMultiplier = 0
        rw [Function.update_noteq fun hh => hb hh.symm]
        exact h0
    | withdraw s c =>
      obtain ⟨w, h⟩ := map_fst_ok h
      by_cases hb : s = b
      · subst hb
        rw [withdraw_noCollateral h0] at h
        exact Except.noConfusion h
      · obtain ⟨-, -, -, -, -, -, rfl, -⟩ := withdraw_ok h
        refine absurd ?_ hne
        show getFeeAdjustedCollateral
          ((Function.update st.positions s _) b).rawCollateral
          st.cumulativeFeeMultiplier = 0
        rw [Function.update_noteq fun hh => hb hh.symm]
        exact h0
    | requestWithdrawal s now c =>
      by_cases hb : s = b
      · subst hb
        exact Except.noConfusion ((requestWithdrawal_noCollateral h0).symm.trans h)
      · obtain ⟨-, -, -, rfl⟩ := requestWithdrawal_ok h
        refine absurd ?_ hne
        show getFeeAdjustedCollateral
          ((Function.update st.positions s _) b).rawCollateral
          st.cumulativeFeeMultiplier = 0
        rw [Function.update_noteq fun hh => hb hh.symm]
        exact h0
    | withdrawPassedRequest s now =>
      obtain ⟨w, h⟩ := map_fst_ok h
      by_cases hb : s = b
      · subst hb
        rw [withdrawPassedRequest_noCollateral h0] at h
        exact Except.noConfusion h
      · obtain ⟨-, -, -, -, rfl, -⟩ := withdrawPassedRequest_ok h
        refine absurd ?_ hne
        show getFeeAdjustedCollateral
          ((Function.update st.positions s _) b).rawCollateral
          st.cumulativeFeeMultiplier = 0
        rw [Function.update_noteq fun hh => hb hh.symm]
        exact h0
    | cancelWithdrawal s =>
      by_cases hb : s = b
      · subst hb
        exact Except.noConfusion ((cancelWithdrawal_noCollateral h0).symm.trans h)
      · obtain ⟨-, -, rfl⟩ := cancelWithdrawal_ok h
        refine absurd ?_ hne
        show getFeeAdjustedCollateral
          ((Function.update st.positions s _) b).rawCollateral
          st.cumulativeFeeMultiplier = 0
        rw [Function.update_noteq fun hh => hb hh.symm]
        exact h0
    | redeem s n =>
      obtain ⟨w, h⟩ := map_fst_ok h
      by_cases hb : s = b
      · subst hb
        rw [redeem_noCollateral h0] at h
        exact Except.noConfusion h
      · obtain ⟨-, -, -, -, hbr⟩ := redeem_ok h
        rcases hbr with ⟨-, hdel⟩ | ⟨-, -, -, -, -, rfl, -⟩
        · obtain ⟨-, -, -, rfl, -⟩ := deleteSponsorPosition_ok hdel
          refine absurd ?_ hne
          show getFeeAdjustedCollateral
            ((Function.update st.positions s emptyPosition) b).rawCollateral
            st.cumulativeFeeMultiplier = 0
          rw [Function.update_noteq fun hh => hb hh.symm]
          exact h0
        · refine absurd ?_ hne
          show getFeeAdjustedCollateral
            ((Function.update st.positions s _) b).rawCollateral
            st.cumulativeFeeMultiplier = 0
          rw [Function.update_noteq fun hh => hb hh.symm]
          exact h0
    | requestTransferPosition s now =>
      by_cases hb : s = b
      · subst hb
        exact Except.noConfusion ((requestTransferPosition_noCollateral h0).symm.trans h)
      · obtain ⟨-, -, -, rfl⟩ := requestTransferPosition_ok h
        refine absurd ?_ hne
        show getFeeAdjustedCollateral
          ((Function.update st.positions s _) b).rawCollateral
          st.cumulativeFeeMultiplier = 0
        rw [Function.update_noteq fun hh => hb hh.symm]
        exact h0
    | transferPositionPassedRequest s now ns =>
      by_cases hnb : ns = b
      · subst hnb
        exact Or.inr ⟨s, now, rfl⟩
      · by_cases hb : s = b
        · subst hb
          exact Except.noConfusion ((transferPositionPassedRequest_noCollateral h0).symm.trans h)
        · obtain ⟨-, -, -, -, rfl⟩ := transferPositionPassedRequest_ok h
          refine absurd ?_ hne
          show getFeeAdjustedCollateral
            ((Function.update (Function.update st.positions ns _) s emptyPosition)
              b).rawCollateral st.cumulativeFeeMultiplier = 0
          rw [Function.update_noteq fun hh => hb hh.symm,
            Function.update_noteq fun hh => hnb hh.symm]
          exact h0
    | cancelTransferPosition s =>
      by_cases hb : s = b
      · subst hb
        exact Except.noConfusion ((cancelTransferPosition_noCollateral h0).symm.trans h)
      · obtain ⟨-, -, rfl⟩ := cancelTransferPosition_ok h
        refine absurd ?_ hne
        show getFeeAdjustedCollateral
          ((Function.update st.positions s _) b).rawCollateral
          st.cumulativeFeeMultiplier = 0
        rw [Function.update_noteq fun hh => hb hh.symm]
        exact h0
    | accrueFees m' =>
      obtain ⟨⟨-, hle⟩, rfl⟩ := accrueFees_ok h
      refine absurd (Nat.le_zero.mp ?_) hne
      show getFeeAdjustedCollateral (st.positions b).rawCollateral m' ≤ 0
      rw [← h0]
      exact getFeeAdjustedCollateral_mult_mono _ hle


/-- Empty ledger used for the C9 witness. -/
def w9State : LedgerState := initState 10 0 1000000000

/-- State after sponsor 5 creates a position on the empty ledger. -/
def w9New : LedgerState := resultState (exec (.create 5 100 10) w9State)

/-- Witness for C9: on a sponsor with zero fee-adjusted collateral, the
lookup operations report the no-collateral error, and the entry
characterization applied to a successful `create` picks the create
disjunct. -/
theorem C9_no_collateral_lookup_witness :
    depositTo 5 7 w9State = .error .noCollateral ∧
    redeem 5 3 w9State = .error .noCollateral ∧
    ((∃ c n, Op.create 5 100 10 = Op.create 5 c n) ∨
      (∃ s now, Op.create 5 100 10 = Op.transferPositionPassedRequest s now 5)) :=
  ⟨(C9_no_collateral_lookup.1 w9State 5 7 0 3 (by decide)).1,
   (C9_no_collateral_lookup.1 w9State 5 7 0 3 (by decide)).2.2.2.2.2.1,
   C9_no_collateral_lookup.2 (.create 5 100 10) w9State w9New 5 (by decide) rfl
     (by decide)⟩

/-- Reachable preparation for the C9 counterexample: sponsor 0 opens a
zero-token position (minimum size 0) and a transfer request that passes
immediately (liveness 0). -/
def c9Ops : List Op := [.create 0 5 0, .requestTransferPosition 0 2]

/-- State before the C9 counterexample step. -/
def c9Pre : LedgerState := resultState (execTrace c9Ops (initState 0 0 1000000000))

/-- State after the C9 counterexample step. -/
def c9Post : LedgerState :=
  resultState (exec (.transferPositionPassedRequest 0 2 9) c9Pre)

/-- Counterexample to C9 as stated: sponsor 9 has zero fee-adjusted
collateral (an absent position), yet re-enters the ledger with collateral 5
through another sponsor's `transferPositionPassedRequest`, not through
`create`. -/
theorem C9_no_collateral_lookup_counterexample :
    execTrace c9Ops (initState 0 0 1000000000) = .ok c9Pre ∧
    getFeeAdjustedCollateral (c9Pre.positions 9).rawCollateral
      c9Pre.cumulativeFeeMultiplier = 0 ∧
    c9Pre.positions 9 = emptyPosition ∧
    exec (.transferPositionPassedRequest 0 2 9) c9Pre = .ok c9Post ∧
    getFeeAdjustedCollateral (c9Post.positions 9).rawCollateral
      c9Post.cumulativeFeeMultiplier = 5 ∧
    (c9Post.positions 9).rawCollateral ≠ 0 :=
  ⟨rfl, by decide, by decide, rfl, by decide, by decide⟩

/-- C10 (confirmed): a successful `cancelWithdrawal` only zeroes the
caller's two withdrawal-request fields, and a successful
`cancelTransferPosition` only zeroes the caller's transfer-request pass
timestamp; the caller's tokens and collateral, every other sponsor's
position, both aggregate counters, the fee multiplier and the configuration
are unchanged, and neither operation produces a token transfer (both return
only the new ledger state). -/
theorem C10_cancel_frame (st st' : LedgerState) (s : Nat) :
    (cancelWithdrawal s st = .ok st' →
      st'.positions s = { st.positions s with
        withdrawalRequestAmount := 0
        withdrawalRequestPassTimestamp := 0 } ∧
      (∀ a, a ≠ s → st'.positions a = st.positions a) ∧
      st'.totalTokensOutstanding = st.totalTokensOutstanding ∧
      st'.rawTotalPositionCollateral = st.rawTotalPositionCollateral ∧
      st'.cumulativeFeeMultiplier = st.cumulativeFeeMultiplier ∧
      st'.minSponsorTokens = st.minSponsorTokens ∧
      st'.withdrawalLiveness = st.withdrawalLiveness ∧
      st'.expirationTimestamp = st.expirationTimestamp) ∧
    (cancelTransferPosition s st = .ok st' →
      st'.positions s = { st.positions s with
        transferPositionRequestPassTimestamp := 0 } ∧
      (∀ a, a ≠ s → st'.positions a = st.positions a) ∧
      st'.totalTokensOutstanding = st.totalTokensOutstanding ∧
      st'.rawTotalPositionCollateral = st.rawTotalPositionCollateral ∧
      st'.cumulativeFeeMultiplier = st.cumulativeFeeMultiplier ∧
      st'.minSponsorTokens = st.minSponsorTokens ∧
      st'.withdrawalLiveness = st.withdrawalLiveness ∧
      st'.expirationTimestamp = st.expirationTimestamp) := by
  constructor
  · intro h
    obtain ⟨-, -, rfl⟩ := cancelWithdrawal_ok h
    refine ⟨Function.update_same .., ?_, rfl, rfl, rfl, rfl, rfl, rfl⟩
    intro a ha
    exact Function.update_noteq ha ..
  · intro h
    obtain ⟨-, -, rfl⟩ := cancelTransferPosition_ok h
    refine ⟨Function.update_same .., ?_, rfl, rfl, rfl, rfl, rfl, rfl⟩
    intro a ha
    exact Function.update_noteq ha ..

/-- Concrete state for the C10 witness: sponsor 2 has both a pending
withdrawal request and a pending transfer request. -/
def w10State : LedgerState :=
  { positions := fun a =>
      if a = 2 then ⟨10, 7, 30, 100, 9⟩ else emptyPosition
    sponsors := {2}
    totalTokensOutstanding := 10
    rawTotalPositionCollateral := 100
    cumulativeFeeMultiplier := SCALE
    minSponsorTokens := 10
    withdrawalLiveness := 0
    expirationTimestamp := 1000000000 }

/-- State after cancelling the witness withdrawal request. -/
def w10A : LedgerState := resultState (cancelWithdrawal 2 w10State)

/-- State after cancelling the witness transfer request. -/
def w10B : LedgerState := resultState (cancelTransferPosition 2 w10State)

/-- Witness for C10: both cancellations succeed on the concrete state and
the frame conclusions hold there. -/
theorem C10_cancel_frame_witness :
    cancelWithdrawal 2 w10State = .ok w10A ∧
    w10A.positions 2 = { w10State.positions 2 with
      withdrawalRequestAmount := 0
      withdrawalRequestPassTimestamp := 0 } ∧
    w10A.rawTotalPositionCollateral = w10State.rawTotalPositionCollateral ∧
    cancelTransferPosition 2 w10State = .ok w10B ∧
    w10B.positions 2 = { w10State.positions 2 with
      transferPositionRequestPassTimestamp := 0 } ∧
    w10B.totalTokensOutstanding = w10State.totalTokensOutstanding :=
  ⟨rfl,
   ((C10_cancel_frame w10State w10A 2).1 rfl).1,
   ((C10_cancel_frame w10State w10A 2).1 rfl).2.2.2.1,
   rfl,
   ((C10_cancel_frame w10State w10B 2).2 rfl).1,
   ((C10_cancel_frame w10State w10B 2).2 rfl).2.2.1⟩


end PerpetualPositionManager
